import Mathlib

/-!
# The R binding shim of sedonadb (`r/sedonadb/src/init.c`)

A shallow embedding of the generated C shim that sits between R's `.Call`
interface and the engine's `savvy_*__ffi` entry points: the tagged-pointer
routine `handle_result`, the forwarding wrappers `savvy_*__impl`, the
registration table `CallEntries` and the load hook `R_init_sedonadb`.

Pointers are natural numbers below `2 ^ w`, where `w` is the pointer width.
What the C file takes from the host (`TYPEOF`, `CHAR`, `CHARSXP`,
`R_NilValue`, `R_registerRoutines`, `R_useDynamicSymbols`) and from the engine
(the `savvy_*__ffi` functions declared in `rust/api.h`) is a parameter,
collected in `Host`.  A call that leaves by `longjmp` (`Rf_errorcall`,
`R_ContinueUnwind`) ends the run with `Exit.unwound`.
-/

namespace Sedonadb

/-! ## Values crossing the boundary -/

/-- A host value pointer (`SEXP`), as the address it holds. -/
structure SEXP where
  addr : Nat
  deriving DecidableEq

/-- A pointer to the host's record of the loaded library (`DllInfo *`). -/
structure DllInfoPtr where
  addr : Nat
  deriving DecidableEq

/-- An actual argument handed to an engine entry point. -/
inductive Arg where
  | sexp (x : SEXP)
  | dll (d : DllInfoPtr)
  deriving DecidableEq

/-- The engine entry points declared in `rust/api.h` that the shim calls. -/
inductive Ffi where
  | savvy_configure_proj_shared__ffi
  | savvy_init_r_runtime__ffi
  | savvy_init_r_runtime_interrupts__ffi
  | savvy_parse_crs_metadata__ffi
  | savvy_sedonadb_adbc_init_func__ffi
  | savvy_InternalContext_data_frame_from_array_stream__ffi
  | savvy_InternalContext_data_frame_from_table_provider__ffi
  | savvy_InternalContext_deregister_table__ffi
  | savvy_InternalContext_new__ffi
  | savvy_InternalContext_read_parquet__ffi
  | savvy_InternalContext_register_scalar_udf__ffi
  | savvy_InternalContext_scalar_udf_xptr__ffi
  | savvy_InternalContext_sql__ffi
  | savvy_InternalContext_view__ffi
  | savvy_InternalDataFrame_collect__ffi
  | savvy_InternalDataFrame_compute__ffi
  | savvy_InternalDataFrame_count__ffi
  | savvy_InternalDataFrame_limit__ffi
  | savvy_InternalDataFrame_primary_geometry_column_index__ffi
  | savvy_InternalDataFrame_select_indices__ffi
  | savvy_InternalDataFrame_show__ffi
  | savvy_InternalDataFrame_to_arrow_schema__ffi
  | savvy_InternalDataFrame_to_arrow_stream__ffi
  | savvy_InternalDataFrame_to_parquet__ffi
  | savvy_InternalDataFrame_to_provider__ffi
  | savvy_InternalDataFrame_to_view__ffi
  | savvy_SedonaCrsR_authority_code__ffi
  | savvy_SedonaCrsR_display__ffi
  | savvy_SedonaCrsR_srid__ffi
  | savvy_SedonaCrsR_to_crs_string__ffi
  | savvy_SedonaCrsR_to_json__ffi
  | savvy_SedonaDBExpr_alias__ffi
  | savvy_SedonaDBExpr_cast__ffi
  | savvy_SedonaDBExpr_debug_string__ffi
  | savvy_SedonaDBExpr_display__ffi
  | savvy_SedonaDBExpr_negate__ffi
  | savvy_SedonaDBExprFactory_aggregate_function__ffi
  | savvy_SedonaDBExprFactory_binary__ffi
  | savvy_SedonaDBExprFactory_column__ffi
  | savvy_SedonaDBExprFactory_literal__ffi
  | savvy_SedonaDBExprFactory_new__ffi
  | savvy_SedonaDBExprFactory_scalar_function__ffi
  | savvy_SedonaTypeR_crs__ffi
  | savvy_SedonaTypeR_crs_display__ffi
  | savvy_SedonaTypeR_logical_type_name__ffi
  | savvy_SedonaTypeR_name__ffi
  | savvy_SedonaTypeR_new__ffi
  deriving DecidableEq

/-- The wrapper functions defined in the file, as targets of a function pointer. -/
inductive Impl where
  | savvy_configure_proj_shared__impl
  | savvy_init_r_runtime__impl
  | savvy_init_r_runtime_interrupts__impl
  | savvy_parse_crs_metadata__impl
  | savvy_sedonadb_adbc_init_func__impl
  | savvy_InternalContext_data_frame_from_array_stream__impl
  | savvy_InternalContext_data_frame_from_table_provider__impl
  | savvy_InternalContext_deregister_table__impl
  | savvy_InternalContext_new__impl
  | savvy_InternalContext_read_parquet__impl
  | savvy_InternalContext_register_scalar_udf__impl
  | savvy_InternalContext_scalar_udf_xptr__impl
  | savvy_InternalContext_sql__impl
  | savvy_InternalContext_view__impl
  | savvy_InternalDataFrame_collect__impl
  | savvy_InternalDataFrame_compute__impl
  | savvy_InternalDataFrame_count__impl
  | savvy_InternalDataFrame_limit__impl
  | savvy_InternalDataFrame_primary_geometry_column_index__impl
  | savvy_InternalDataFrame_select_indices__impl
  | savvy_InternalDataFrame_show__impl
  | savvy_InternalDataFrame_to_arrow_schema__impl
  | savvy_InternalDataFrame_to_arrow_stream__impl
  | savvy_InternalDataFrame_to_parquet__impl
  | savvy_InternalDataFrame_to_provider__impl
  | savvy_InternalDataFrame_to_view__impl
  | savvy_SedonaCrsR_authority_code__impl
  | savvy_SedonaCrsR_display__impl
  | savvy_SedonaCrsR_srid__impl
  | savvy_SedonaCrsR_to_crs_string__impl
  | savvy_SedonaCrsR_to_json__impl
  | savvy_SedonaDBExpr_alias__impl
  | savvy_SedonaDBExpr_cast__impl
  | savvy_SedonaDBExpr_debug_string__impl
  | savvy_SedonaDBExpr_display__impl
  | savvy_SedonaDBExpr_negate__impl
  | savvy_SedonaDBExprFactory_aggregate_function__impl
  | savvy_SedonaDBExprFactory_binary__impl
  | savvy_SedonaDBExprFactory_column__impl
  | savvy_SedonaDBExprFactory_literal__impl
  | savvy_SedonaDBExprFactory_new__impl
  | savvy_SedonaDBExprFactory_scalar_function__impl
  | savvy_SedonaTypeR_crs__impl
  | savvy_SedonaTypeR_crs_display__impl
  | savvy_SedonaTypeR_logical_type_name__impl
  | savvy_SedonaTypeR_name__impl
  | savvy_SedonaTypeR_new__impl
  deriving DecidableEq, Fintype

/-- One row of a `.Call` registration table: `{name, fun, numArgs}`; the
pointers are `none` where the C initialiser has `NULL`. -/
structure R_CallMethodDef where
  name : Option String
  fun_ : Option Impl
  numArgs : Nat
  deriving DecidableEq

/-- One row of a `.C` or `.Fortran` registration table.  The shim has no such
table; the type only gives the `NULL` arguments of `R_registerRoutines` a type. -/
structure R_CMethodDef where
  name : Option String
  numArgs : Nat
  deriving DecidableEq

/-! ## Calls the shim makes, and the computations that make them -/

/-- A call leaving the shim, with its actual arguments. -/
inductive Event where
  | ffi (f : Ffi) (args : List Arg)
  | Rf_errorcall (call : SEXP) (format : String) (args : List String)
  | R_ContinueUnwind (cont : SEXP)
  | R_registerRoutines (info : DllInfoPtr)
      (cRoutines : Option (List R_CMethodDef))
      (callRoutines : Option (List R_CallMethodDef))
      (fortranRoutines : Option (List R_CMethodDef))
      (externalRoutines : Option (List R_CallMethodDef))
  | R_useDynamicSymbols (info : DllInfoPtr) (value : Bool)
  deriving DecidableEq

/-- Whether the call is one of the two that raise on the host side. -/
def Event.raises : Event → Bool
  | .Rf_errorcall _ _ _ => true
  | .R_ContinueUnwind _ => true
  | _ => false

/-- Whether the call is one into the engine. -/
def Event.isFfi : Event → Bool
  | .ffi _ _ => true
  | _ => false

/-- How control leaves a C function: by `return`, or by a `longjmp` out of it. -/
inductive Exit (α : Type) where
  | returned (a : α)
  | unwound
  deriving DecidableEq

/-- What running a C function from a given state produced: how it left, the
state of host and engine afterwards, and the calls it made, oldest first. -/
structure Run (σ α : Type) where
  exit : Exit α
  state : σ
  calls : List Event

/-- A C function body, run from a state of host and engine. -/
def M (σ α : Type) : Type := σ → Run σ α

/-- A body that returns `a` without calling anything. -/
def M.pure {σ α : Type} (a : α) : M σ α :=
  fun s => ⟨.returned a, s, []⟩

/-- Sequencing: the rest runs only if the first part returned. -/
def M.bind {σ α β : Type} (m : M σ α) (k : α → M σ β) : M σ β :=
  fun s =>
    match m s with
    | ⟨.returned a, s1, c1⟩ =>
      match k a s1 with
      | ⟨e, s2, c2⟩ => ⟨e, s2, c1 ++ c2⟩
    | ⟨.unwound, s1, c1⟩ => ⟨.unwound, s1, c1⟩

instance {σ : Type} : Monad (M σ) where
  pure := M.pure
  bind := M.bind

/-- What the C file uses without defining: the pointer width, the host's
constants and accessors, its registration functions (their return values are
discarded by the shim, so only their effect on the state is kept), and the
engine's entry points (each returns a result word and may change the state). -/
structure Host (σ : Type) where
  w : Nat
  CHARSXP : Nat
  R_NilValue : SEXP
  TYPEOF : σ → SEXP → Nat
  CHAR : σ → SEXP → String
  ffi : Ffi → List Arg → σ → SEXP × σ
  R_registerRoutines : DllInfoPtr → Option (List R_CMethodDef) →
    Option (List R_CallMethodDef) → Option (List R_CMethodDef) →
    Option (List R_CallMethodDef) → σ → σ
  R_useDynamicSymbols : DllInfoPtr → Bool → σ → σ

variable {σ : Type}

/-- The macro `TYPEOF(x)`: reading the type tag of a host object. -/
def TYPEOF (H : Host σ) (x : SEXP) : M σ Nat :=
  fun s => ⟨.returned (H.TYPEOF s x), s, []⟩

/-- The macro `CHAR(x)`: the C string held by a `CHARSXP`. -/
def CHAR (H : Host σ) (x : SEXP) : M σ String :=
  fun s => ⟨.returned (H.CHAR s x), s, []⟩

/-- The host function `Rf_errorcall(call, format, ...)`: raises a host error; does not return. -/
def Rf_errorcall (call : SEXP) (format : String) (args : List String) : M σ Unit :=
  fun s => ⟨.unwound, s, [.Rf_errorcall call format args]⟩

/-- The host function `R_ContinueUnwind(cont)`: resumes a host unwind; does not return. -/
def R_ContinueUnwind (cont : SEXP) : M σ Unit :=
  fun s => ⟨.unwound, s, [.R_ContinueUnwind cont]⟩

/-- A call of the engine entry point `f`. -/
def engine (H : Host σ) (f : Ffi) (args : List Arg) : M σ SEXP :=
  fun s => ⟨.returned (H.ffi f args s).1, (H.ffi f args s).2, [.ffi f args]⟩

/-- The host function `R_registerRoutines(info, cRoutines, callRoutines,
fortranRoutines, externalRoutines)`. -/
def R_registerRoutines (H : Host σ) (info : DllInfoPtr)
    (cRoutines : Option (List R_CMethodDef))
    (callRoutines : Option (List R_CallMethodDef))
    (fortranRoutines : Option (List R_CMethodDef))
    (externalRoutines : Option (List R_CallMethodDef)) : M σ Unit :=
  fun s => ⟨.returned (),
    H.R_registerRoutines info cRoutines callRoutines fortranRoutines externalRoutines s,
    [.R_registerRoutines info cRoutines callRoutines fortranRoutines externalRoutines]⟩

/-- The host function `R_useDynamicSymbols(info, value)`. -/
def R_useDynamicSymbols (H : Host σ) (info : DllInfoPtr) (value : Bool) : M σ Unit :=
  fun s => ⟨.returned (), H.R_useDynamicSymbols info value s,
    [.R_useDynamicSymbols info value]⟩

/-! ## `handle_result` -/

/-- The tag bit: `static uintptr_t TAGGED_POINTER_MASK = (uintptr_t)1;`, a
`w`-bit word. -/
def TAGGED_POINTER_MASK (w : Nat) : Nat := 1 % 2 ^ w

/-- Bitwise complement of a `w`-bit word (`~x` on `uintptr_t`). -/
def complement (w x : Nat) : Nat := 2 ^ w - 1 - x

/-- The body of `handle_result`: a result word with bit 0 set is an error,
raised from the pointer with the tag removed; any other word is returned. -/
def handle_result (H : Host σ) (res_ : SEXP) : M σ SEXP := do
  let res : Nat := res_.addr % 2 ^ H.w
  if res &&& TAGGED_POINTER_MASK H.w = 1 then
    let res_aligned : SEXP := ⟨res &&& complement H.w (TAGGED_POINTER_MASK H.w)⟩
    if (← TYPEOF H res_aligned) = H.CHARSXP then
      Rf_errorcall H.R_NilValue "%s" [← CHAR H res_aligned]
    else
      R_ContinueUnwind res_aligned
  return ⟨res⟩

/-- The pointer `handle_result` inspects once the tag is removed
(`res_aligned` in the source). -/
def untagged (H : Host σ) (res_ : SEXP) : SEXP :=
  ⟨(res_.addr % 2 ^ H.w) &&& complement H.w (TAGGED_POINTER_MASK H.w)⟩

/-- The text a `printf`-style format yields from its string arguments, for the
directives `%s` (the next argument, copied as it is) and `%%` (a percent sign);
any other character of the format stands for itself.  This is the reading the
host gives to the format and arguments of `Rf_errorcall`. -/
def formatted : List Char → List String → List Char
  | '%' :: 's' :: rest, a :: args => a.data ++ formatted rest args
  | '%' :: '%' :: rest, args => '%' :: formatted rest args
  | c :: rest, args => c :: formatted rest args
  | [], _ => []

/-! ## The wrappers -/

def savvy_configure_proj_shared__impl (H : Host σ)
    (c_arg__shared_library_path : SEXP)
    (c_arg__database_path : SEXP)
    (c_arg__search_path : SEXP) : M σ SEXP := do
  let res ← engine H .savvy_configure_proj_shared__ffi
    [.sexp c_arg__shared_library_path,
     .sexp c_arg__database_path,
     .sexp c_arg__search_path]
  handle_result H res

def savvy_init_r_runtime__impl (H : Host σ) (c_arg___dll_info : DllInfoPtr) : M σ SEXP := do
  let res ← engine H .savvy_init_r_runtime__ffi [.dll c_arg___dll_info]
  handle_result H res

def savvy_init_r_runtime_interrupts__impl (H : Host σ)
    (c_arg__interrupts_call : SEXP)
    (c_arg__pkg_env : SEXP) : M σ SEXP := do
  let res ← engine H .savvy_init_r_runtime_interrupts__ffi
    [.sexp c_arg__interrupts_call,
     .sexp c_arg__pkg_env]
  handle_result H res

def savvy_parse_crs_metadata__impl (H : Host σ) (c_arg__crs_json : SEXP) : M σ SEXP := do
  let res ← engine H .savvy_parse_crs_metadata__ffi [.sexp c_arg__crs_json]
  handle_result H res

def savvy_sedonadb_adbc_init_func__impl (H : Host σ) : M σ SEXP := do
  let res ← engine H .savvy_sedonadb_adbc_init_func__ffi []
  handle_result H res

def savvy_InternalContext_data_frame_from_array_stream__impl (H : Host σ)
    (self__ : SEXP)
    (c_arg__stream_xptr : SEXP)
    (c_arg__collect_now : SEXP) : M σ SEXP := do
  let res ← engine H .savvy_InternalContext_data_frame_from_array_stream__ffi
    [.sexp self__,
     .sexp c_arg__stream_xptr,
     .sexp c_arg__collect_now]
  handle_result H res

def savvy_InternalContext_data_frame_from_table_provider__impl (H : Host σ)
    (self__ : SEXP)
    (c_arg__provider_xptr : SEXP) : M σ SEXP := do
  let res ← engine H .savvy_InternalContext_data_frame_from_table_provider__ffi
    [.sexp self__,
     .sexp c_arg__provider_xptr]
  handle_result H res

def savvy_InternalContext_deregister_table__impl (H : Host σ)
    (self__ : SEXP)
    (c_arg__table_ref : SEXP) : M σ SEXP := do
  let res ← engine H .savvy_InternalContext_deregister_table__ffi
    [.sexp self__,
     .sexp c_arg__table_ref]
  handle_result H res

def savvy_InternalContext_new__impl (H : Host σ) : M σ SEXP := do
  let res ← engine H .savvy_InternalContext_new__ffi []
  handle_result H res

def savvy_InternalContext_read_parquet__impl (H : Host σ)
    (self__ : SEXP)
    (c_arg__paths : SEXP) : M σ SEXP := do
  let res ← engine H .savvy_InternalContext_read_parquet__ffi [.sexp self__, .sexp c_arg__paths]
  handle_result H res

def savvy_InternalContext_register_scalar_udf__impl (H : Host σ)
    (self__ : SEXP)
    (c_arg__scalar_udf_xptr : SEXP) : M σ SEXP := do
  let res ← engine H .savvy_InternalContext_register_scalar_udf__ffi
    [.sexp self__,
     .sexp c_arg__scalar_udf_xptr]
  handle_result H res

def savvy_InternalContext_scalar_udf_xptr__impl (H : Host σ)
    (self__ : SEXP)
    (c_arg__name : SEXP) : M σ SEXP := do
  let res ← engine H .savvy_InternalContext_scalar_udf_xptr__ffi [.sexp self__, .sexp c_arg__name]
  handle_result H res

def savvy_InternalContext_sql__impl (H : Host σ)
    (self__ : SEXP)
    (c_arg__query : SEXP) : M σ SEXP := do
  let res ← engine H .savvy_InternalContext_sql__ffi [.sexp self__, .sexp c_arg__query]
  handle_result H res

def savvy_InternalContext_view__impl (H : Host σ)
    (self__ : SEXP)
    (c_arg__table_ref : SEXP) : M σ SEXP := do
  let res ← engine H .savvy_InternalContext_view__ffi [.sexp self__, .sexp c_arg__table_ref]
  handle_result H res

def savvy_InternalDataFrame_collect__impl (H : Host σ)
    (self__ : SEXP)
    (c_arg__out : SEXP) : M σ SEXP := do
  let res ← engine H .savvy_InternalDataFrame_collect__ffi [.sexp self__, .sexp c_arg__out]
  handle_result H res

def savvy_InternalDataFrame_compute__impl (H : Host σ)
    (self__ : SEXP)
    (c_arg__ctx : SEXP) : M σ SEXP := do
  let res ← engine H .savvy_InternalDataFrame_compute__ffi [.sexp self__, .sexp c_arg__ctx]
  handle_result H res

def savvy_InternalDataFrame_count__impl (H : Host σ) (self__ : SEXP) : M σ SEXP := do
  let res ← engine H .savvy_InternalDataFrame_count__ffi [.sexp self__]
  handle_result H res

def savvy_InternalDataFrame_limit__impl (H : Host σ)
    (self__ : SEXP)
    (c_arg__n : SEXP) : M σ SEXP := do
  let res ← engine H .savvy_InternalDataFrame_limit__ffi [.sexp self__, .sexp c_arg__n]
  handle_result H res

def savvy_InternalDataFrame_primary_geometry_column_index__impl (H : Host σ)
    (self__ : SEXP) : M σ SEXP := do
  let res ← engine H .savvy_InternalDataFrame_primary_geometry_column_index__ffi [.sexp self__]
  handle_result H res

def savvy_InternalDataFrame_select_indices__impl (H : Host σ)
    (self__ : SEXP)
    (c_arg__names : SEXP)
    (c_arg__indices : SEXP) : M σ SEXP := do
  let res ← engine H .savvy_InternalDataFrame_select_indices__ffi
    [.sexp self__,
     .sexp c_arg__names,
     .sexp c_arg__indices]
  handle_result H res

def savvy_InternalDataFrame_show__impl (H : Host σ)
    (self__ : SEXP)
    (c_arg__ctx : SEXP)
    (c_arg__width_chars : SEXP)
    (c_arg__ascii : SEXP)
    (c_arg__limit : SEXP) : M σ SEXP := do
  let res ← engine H .savvy_InternalDataFrame_show__ffi
    [.sexp self__,
     .sexp c_arg__ctx,
     .sexp c_arg__width_chars,
     .sexp c_arg__ascii,
     .sexp c_arg__limit]
  handle_result H res

def savvy_InternalDataFrame_to_arrow_schema__impl (H : Host σ)
    (self__ : SEXP)
    (c_arg__out : SEXP) : M σ SEXP := do
  let res ← engine H .savvy_InternalDataFrame_to_arrow_schema__ffi [.sexp self__, .sexp c_arg__out]
  handle_result H res

def savvy_InternalDataFrame_to_arrow_stream__impl (H : Host σ)
    (self__ : SEXP)
    (c_arg__out : SEXP)
    (c_arg__requested_schema_xptr : SEXP) : M σ SEXP := do
  let res ← engine H .savvy_InternalDataFrame_to_arrow_stream__ffi
    [.sexp self__,
     .sexp c_arg__out,
     .sexp c_arg__requested_schema_xptr]
  handle_result H res

def savvy_InternalDataFrame_to_parquet__impl (H : Host σ)
    (self__ : SEXP)
    (c_arg__ctx : SEXP)
    (c_arg__path : SEXP)
    (c_arg__partition_by : SEXP)
    (c_arg__sort_by : SEXP)
    (c_arg__single_file_output : SEXP)
    (c_arg__overwrite_bbox_columns : SEXP)
    (c_arg__geoparquet_version : SEXP) : M σ SEXP := do
  let res ← engine H .savvy_InternalDataFrame_to_parquet__ffi
    [.sexp self__,
     .sexp c_arg__ctx,
     .sexp c_arg__path,
     .sexp c_arg__partition_by,
     .sexp c_arg__sort_by,
     .sexp c_arg__single_file_output,
     .sexp c_arg__overwrite_bbox_columns,
     .sexp c_arg__geoparquet_version]
  handle_result H res

def savvy_InternalDataFrame_to_provider__impl (H : Host σ) (self__ : SEXP) : M σ SEXP := do
  let res ← engine H .savvy_InternalDataFrame_to_provider__ffi [.sexp self__]
  handle_result H res

def savvy_InternalDataFrame_to_view__impl (H : Host σ)
    (self__ : SEXP)
    (c_arg__ctx : SEXP)
    (c_arg__table_ref : SEXP)
    (c_arg__overwrite : SEXP) : M σ SEXP := do
  let res ← engine H .savvy_InternalDataFrame_to_view__ffi
    [.sexp self__,
     .sexp c_arg__ctx,
     .sexp c_arg__table_ref,
     .sexp c_arg__overwrite]
  handle_result H res

def savvy_SedonaCrsR_authority_code__impl (H : Host σ) (self__ : SEXP) : M σ SEXP := do
  let res ← engine H .savvy_SedonaCrsR_authority_code__ffi [.sexp self__]
  handle_result H res

def savvy_SedonaCrsR_display__impl (H : Host σ) (self__ : SEXP) : M σ SEXP := do
  let res ← engine H .savvy_SedonaCrsR_display__ffi [.sexp self__]
  handle_result H res

def savvy_SedonaCrsR_srid__impl (H : Host σ) (self__ : SEXP) : M σ SEXP := do
  let res ← engine H .savvy_SedonaCrsR_srid__ffi [.sexp self__]
  handle_result H res

def savvy_SedonaCrsR_to_crs_string__impl (H : Host σ) (self__ : SEXP) : M σ SEXP := do
  let res ← engine H .savvy_SedonaCrsR_to_crs_string__ffi [.sexp self__]
  handle_result H res

def savvy_SedonaCrsR_to_json__impl (H : Host σ) (self__ : SEXP) : M σ SEXP := do
  let res ← engine H .savvy_SedonaCrsR_to_json__ffi [.sexp self__]
  handle_result H res

def savvy_SedonaDBExpr_alias__impl (H : Host σ)
    (self__ : SEXP)
    (c_arg__name : SEXP) : M σ SEXP := do
  let res ← engine H .savvy_SedonaDBExpr_alias__ffi [.sexp self__, .sexp c_arg__name]
  handle_result H res

def savvy_SedonaDBExpr_cast__impl (H : Host σ)
    (self__ : SEXP)
    (c_arg__schema_xptr : SEXP) : M σ SEXP := do
  let res ← engine H .savvy_SedonaDBExpr_cast__ffi [.sexp self__, .sexp c_arg__schema_xptr]
  handle_result H res

def savvy_SedonaDBExpr_debug_string__impl (H : Host σ) (self__ : SEXP) : M σ SEXP := do
  let res ← engine H .savvy_SedonaDBExpr_debug_string__ffi [.sexp self__]
  handle_result H res

def savvy_SedonaDBExpr_display__impl (H : Host σ) (self__ : SEXP) : M σ SEXP := do
  let res ← engine H .savvy_SedonaDBExpr_display__ffi [.sexp self__]
  handle_result H res

def savvy_SedonaDBExpr_negate__impl (H : Host σ) (self__ : SEXP) : M σ SEXP := do
  let res ← engine H .savvy_SedonaDBExpr_negate__ffi [.sexp self__]
  handle_result H res

def savvy_SedonaDBExprFactory_aggregate_function__impl (H : Host σ)
    (self__ : SEXP)
    (c_arg__name : SEXP)
    (c_arg__args : SEXP)
    (c_arg__na_rm : SEXP)
    (c_arg__distinct : SEXP) : M σ SEXP := do
  let res ← engine H .savvy_SedonaDBExprFactory_aggregate_function__ffi
    [.sexp self__,
     .sexp c_arg__name,
     .sexp c_arg__args,
     .sexp c_arg__na_rm,
     .sexp c_arg__distinct]
  handle_result H res

def savvy_SedonaDBExprFactory_binary__impl (H : Host σ)
    (self__ : SEXP)
    (c_arg__op : SEXP)
    (c_arg__lhs : SEXP)
    (c_arg__rhs : SEXP) : M σ SEXP := do
  let res ← engine H .savvy_SedonaDBExprFactory_binary__ffi
    [.sexp self__,
     .sexp c_arg__op,
     .sexp c_arg__lhs,
     .sexp c_arg__rhs]
  handle_result H res

def savvy_SedonaDBExprFactory_column__impl (H : Host σ)
    (self__ : SEXP)
    (c_arg__name : SEXP)
    (c_arg__qualifier : SEXP) : M σ SEXP := do
  let res ← engine H .savvy_SedonaDBExprFactory_column__ffi
    [.sexp self__,
     .sexp c_arg__name,
     .sexp c_arg__qualifier]
  handle_result H res

def savvy_SedonaDBExprFactory_literal__impl (H : Host σ)
    (c_arg__array_xptr : SEXP)
    (c_arg__schema_xptr : SEXP) : M σ SEXP := do
  let res ← engine H .savvy_SedonaDBExprFactory_literal__ffi
    [.sexp c_arg__array_xptr,
     .sexp c_arg__schema_xptr]
  handle_result H res

def savvy_SedonaDBExprFactory_new__impl (H : Host σ) (c_arg__ctx : SEXP) : M σ SEXP := do
  let res ← engine H .savvy_SedonaDBExprFactory_new__ffi [.sexp c_arg__ctx]
  handle_result H res

def savvy_SedonaDBExprFactory_scalar_function__impl (H : Host σ)
    (self__ : SEXP)
    (c_arg__name : SEXP)
    (c_arg__args : SEXP) : M σ SEXP := do
  let res ← engine H .savvy_SedonaDBExprFactory_scalar_function__ffi
    [.sexp self__,
     .sexp c_arg__name,
     .sexp c_arg__args]
  handle_result H res

def savvy_SedonaTypeR_crs__impl (H : Host σ) (self__ : SEXP) : M σ SEXP := do
  let res ← engine H .savvy_SedonaTypeR_crs__ffi [.sexp self__]
  handle_result H res

def savvy_SedonaTypeR_crs_display__impl (H : Host σ) (self__ : SEXP) : M σ SEXP := do
  let res ← engine H .savvy_SedonaTypeR_crs_display__ffi [.sexp self__]
  handle_result H res

def savvy_SedonaTypeR_logical_type_name__impl (H : Host σ) (self__ : SEXP) : M σ SEXP := do
  let res ← engine H .savvy_SedonaTypeR_logical_type_name__ffi [.sexp self__]
  handle_result H res

def savvy_SedonaTypeR_name__impl (H : Host σ) (self__ : SEXP) : M σ SEXP := do
  let res ← engine H .savvy_SedonaTypeR_name__ffi [.sexp self__]
  handle_result H res

def savvy_SedonaTypeR_new__impl (H : Host σ) (c_arg__schema_xptr : SEXP) : M σ SEXP := do
  let res ← engine H .savvy_SedonaTypeR_new__ffi [.sexp c_arg__schema_xptr]
  handle_result H res
/-! ## The registration table and the load hook -/

/-- The table `static const R_CallMethodDef CallEntries[]`, row by row. -/
def CallEntries : List R_CallMethodDef :=
  [⟨some "savvy_configure_proj_shared__impl", some .savvy_configure_proj_shared__impl, 3⟩,
   ⟨some "savvy_init_r_runtime_interrupts__impl", some .savvy_init_r_runtime_interrupts__impl, 2⟩,
   ⟨some "savvy_parse_crs_metadata__impl", some .savvy_parse_crs_metadata__impl, 1⟩,
   ⟨some "savvy_sedonadb_adbc_init_func__impl", some .savvy_sedonadb_adbc_init_func__impl, 0⟩,
   ⟨some "savvy_InternalContext_data_frame_from_array_stream__impl", some .savvy_InternalContext_data_frame_from_array_stream__impl, 3⟩,
   ⟨some "savvy_InternalContext_data_frame_from_table_provider__impl", some .savvy_InternalContext_data_frame_from_table_provider__impl, 2⟩,
   ⟨some "savvy_InternalContext_deregister_table__impl", some .savvy_InternalContext_deregister_table__impl, 2⟩,
   ⟨some "savvy_InternalContext_new__impl", some .savvy_InternalContext_new__impl, 0⟩,
   ⟨some "savvy_InternalContext_read_parquet__impl", some .savvy_InternalContext_read_parquet__impl, 2⟩,
   ⟨some "savvy_InternalContext_register_scalar_udf__impl", some .savvy_InternalContext_register_scalar_udf__impl, 2⟩,
   ⟨some "savvy_InternalContext_scalar_udf_xptr__impl", some .savvy_InternalContext_scalar_udf_xptr__impl, 2⟩,
   ⟨some "savvy_InternalContext_sql__impl", some .savvy_InternalContext_sql__impl, 2⟩,
   ⟨some "savvy_InternalContext_view__impl", some .savvy_InternalContext_view__impl, 2⟩,
   ⟨some "savvy_InternalDataFrame_collect__impl", some .savvy_InternalDataFrame_collect__impl, 2⟩,
   ⟨some "savvy_InternalDataFrame_compute__impl", some .savvy_InternalDataFrame_compute__impl, 2⟩,
   ⟨some "savvy_InternalDataFrame_count__impl", some .savvy_InternalDataFrame_count__impl, 1⟩,
   ⟨some "savvy_InternalDataFrame_limit__impl", some .savvy_InternalDataFrame_limit__impl, 2⟩,
   ⟨some "savvy_InternalDataFrame_primary_geometry_column_index__impl", some .savvy_InternalDataFrame_primary_geometry_column_index__impl, 1⟩,
   ⟨some "savvy_InternalDataFrame_select_indices__impl", some .savvy_InternalDataFrame_select_indices__impl, 3⟩,
   ⟨some "savvy_InternalDataFrame_show__impl", some .savvy_InternalDataFrame_show__impl, 5⟩,
   ⟨some "savvy_InternalDataFrame_to_arrow_schema__impl", some .savvy_InternalDataFrame_to_arrow_schema__impl, 2⟩,
   ⟨some "savvy_InternalDataFrame_to_arrow_stream__impl", some .savvy_InternalDataFrame_to_arrow_stream__impl, 3⟩,
   ⟨some "savvy_InternalDataFrame_to_parquet__impl", some .savvy_InternalDataFrame_to_parquet__impl, 8⟩,
   ⟨some "savvy_InternalDataFrame_to_provider__impl", some .savvy_InternalDataFrame_to_provider__impl, 1⟩,
   ⟨some "savvy_InternalDataFrame_to_view__impl", some .savvy_InternalDataFrame_to_view__impl, 4⟩,
   ⟨some "savvy_SedonaCrsR_authority_code__impl", some .savvy_SedonaCrsR_authority_code__impl, 1⟩,
   ⟨some "savvy_SedonaCrsR_display__impl", some .savvy_SedonaCrsR_display__impl, 1⟩,
   ⟨some "savvy_SedonaCrsR_srid__impl", some .savvy_SedonaCrsR_srid__impl, 1⟩,
   ⟨some "savvy_SedonaCrsR_to_crs_string__impl", some .savvy_SedonaCrsR_to_crs_string__impl, 1⟩,
   ⟨some "savvy_SedonaCrsR_to_json__impl", some .savvy_SedonaCrsR_to_json__impl, 1⟩,
   ⟨some "savvy_SedonaDBExpr_alias__impl", some .savvy_SedonaDBExpr_alias__impl, 2⟩,
   ⟨some "savvy_SedonaDBExpr_cast__impl", some .savvy_SedonaDBExpr_cast__impl, 2⟩,
   ⟨some "savvy_SedonaDBExpr_debug_string__impl", some .savvy_SedonaDBExpr_debug_string__impl, 1⟩,
   ⟨some "savvy_SedonaDBExpr_display__impl", some .savvy_SedonaDBExpr_display__impl, 1⟩,
   ⟨some "savvy_SedonaDBExpr_negate__impl", some .savvy_SedonaDBExpr_negate__impl, 1⟩,
   ⟨some "savvy_SedonaDBExprFactory_aggregate_function__impl", some .savvy_SedonaDBExprFactory_aggregate_function__impl, 5⟩,
   ⟨some "savvy_SedonaDBExprFactory_binary__impl", some .savvy_SedonaDBExprFactory_binary__impl, 4⟩,
   ⟨some "savvy_SedonaDBExprFactory_column__impl", some .savvy_SedonaDBExprFactory_column__impl, 3⟩,
   ⟨some "savvy_SedonaDBExprFactory_literal__impl", some .savvy_SedonaDBExprFactory_literal__impl, 2⟩,
   ⟨some "savvy_SedonaDBExprFactory_new__impl", some .savvy_SedonaDBExprFactory_new__impl, 1⟩,
   ⟨some "savvy_SedonaDBExprFactory_scalar_function__impl", some .savvy_SedonaDBExprFactory_scalar_function__impl, 3⟩,
   ⟨some "savvy_SedonaTypeR_crs__impl", some .savvy_SedonaTypeR_crs__impl, 1⟩,
   ⟨some "savvy_SedonaTypeR_crs_display__impl", some .savvy_SedonaTypeR_crs_display__impl, 1⟩,
   ⟨some "savvy_SedonaTypeR_logical_type_name__impl", some .savvy_SedonaTypeR_logical_type_name__impl, 1⟩,
   ⟨some "savvy_SedonaTypeR_name__impl", some .savvy_SedonaTypeR_name__impl, 1⟩,
   ⟨some "savvy_SedonaTypeR_new__impl", some .savvy_SedonaTypeR_new__impl, 1⟩,
   ⟨none, none, 0⟩]

/-- The body of `R_init_sedonadb`; the wrapper's return value is discarded. -/
def R_init_sedonadb (H : Host σ) (dll : DllInfoPtr) : M σ Unit := do
  R_registerRoutines H dll none (some CallEntries) none none
  R_useDynamicSymbols H dll false
  let _ ← savvy_init_r_runtime__impl H dll
  return ()

/-! ## Function pointers -/

/-- Calling a function of no parameter with the given actual arguments. -/
def call0 {β : Type} (f : β) : List SEXP → Option β
  | [] => some f
  | _ => none

/-- Calling a function of one `SEXP` parameter with the given actual arguments. -/
def call1 {β : Type} (f : SEXP → β) : List SEXP → Option β
  | [a] => some (f a)
  | _ => none

/-- Calling a function of two `SEXP` parameters with the given actual arguments. -/
def call2 {β : Type} (f : SEXP → SEXP → β) : List SEXP → Option β
  | [a, b] => some (f a b)
  | _ => none

/-- Calling a function of three `SEXP` parameters with the given actual arguments. -/
def call3 {β : Type} (f : SEXP → SEXP → SEXP → β) : List SEXP → Option β
  | [a, b, c] => some (f a b c)
  | _ => none

/-- Calling a function of four `SEXP` parameters with the given actual arguments. -/
def call4 {β : Type} (f : SEXP → SEXP → SEXP → SEXP → β) : List SEXP → Option β
  | [a, b, c, d] => some (f a b c d)
  | _ => none

/-- Calling a function of five `SEXP` parameters with the given actual arguments. -/
def call5 {β : Type} (f : SEXP → SEXP → SEXP → SEXP → SEXP → β) : List SEXP → Option β
  | [a, b, c, d, e] => some (f a b c d e)
  | _ => none

/-- Calling a function of eight `SEXP` parameters with the given actual arguments. -/
def call8 {β : Type}
    (f : SEXP → SEXP → SEXP → SEXP → SEXP → SEXP → SEXP → SEXP → β) : List SEXP → Option β
  | [a, b, c, d, e, g, h, i] => some (f a b c d e g h i)
  | _ => none

/-- The C identifier of a wrapper. -/
def Impl.ident : Impl → String
  | .savvy_configure_proj_shared__impl => "savvy_configure_proj_shared__impl"
  | .savvy_init_r_runtime__impl => "savvy_init_r_runtime__impl"
  | .savvy_init_r_runtime_interrupts__impl => "savvy_init_r_runtime_interrupts__impl"
  | .savvy_parse_crs_metadata__impl => "savvy_parse_crs_metadata__impl"
  | .savvy_sedonadb_adbc_init_func__impl => "savvy_sedonadb_adbc_init_func__impl"
  | .savvy_InternalContext_data_frame_from_array_stream__impl => "savvy_InternalContext_data_frame_from_array_stream__impl"
  | .savvy_InternalContext_data_frame_from_table_provider__impl => "savvy_InternalContext_data_frame_from_table_provider__impl"
  | .savvy_InternalContext_deregister_table__impl => "savvy_InternalContext_deregister_table__impl"
  | .savvy_InternalContext_new__impl => "savvy_InternalContext_new__impl"
  | .savvy_InternalContext_read_parquet__impl => "savvy_InternalContext_read_parquet__impl"
  | .savvy_InternalContext_register_scalar_udf__impl => "savvy_InternalContext_register_scalar_udf__impl"
  | .savvy_InternalContext_scalar_udf_xptr__impl => "savvy_InternalContext_scalar_udf_xptr__impl"
  | .savvy_InternalContext_sql__impl => "savvy_InternalContext_sql__impl"
  | .savvy_InternalContext_view__impl => "savvy_InternalContext_view__impl"
  | .savvy_InternalDataFrame_collect__impl => "savvy_InternalDataFrame_collect__impl"
  | .savvy_InternalDataFrame_compute__impl => "savvy_InternalDataFrame_compute__impl"
  | .savvy_InternalDataFrame_count__impl => "savvy_InternalDataFrame_count__impl"
  | .savvy_InternalDataFrame_limit__impl => "savvy_InternalDataFrame_limit__impl"
  | .savvy_InternalDataFrame_primary_geometry_column_index__impl => "savvy_InternalDataFrame_primary_geometry_column_index__impl"
  | .savvy_InternalDataFrame_select_indices__impl => "savvy_InternalDataFrame_select_indices__impl"
  | .savvy_InternalDataFrame_show__impl => "savvy_InternalDataFrame_show__impl"
  | .savvy_InternalDataFrame_to_arrow_schema__impl => "savvy_InternalDataFrame_to_arrow_schema__impl"
  | .savvy_InternalDataFrame_to_arrow_stream__impl => "savvy_InternalDataFrame_to_arrow_stream__impl"
  | .savvy_InternalDataFrame_to_parquet__impl => "savvy_InternalDataFrame_to_parquet__impl"
  | .savvy_InternalDataFrame_to_provider__impl => "savvy_InternalDataFrame_to_provider__impl"
  | .savvy_InternalDataFrame_to_view__impl => "savvy_InternalDataFrame_to_view__impl"
  | .savvy_SedonaCrsR_authority_code__impl => "savvy_SedonaCrsR_authority_code__impl"
  | .savvy_SedonaCrsR_display__impl => "savvy_SedonaCrsR_display__impl"
  | .savvy_SedonaCrsR_srid__impl => "savvy_SedonaCrsR_srid__impl"
  | .savvy_SedonaCrsR_to_crs_string__impl => "savvy_SedonaCrsR_to_crs_string__impl"
  | .savvy_SedonaCrsR_to_json__impl => "savvy_SedonaCrsR_to_json__impl"
  | .savvy_SedonaDBExpr_alias__impl => "savvy_SedonaDBExpr_alias__impl"
  | .savvy_SedonaDBExpr_cast__impl => "savvy_SedonaDBExpr_cast__impl"
  | .savvy_SedonaDBExpr_debug_string__impl => "savvy_SedonaDBExpr_debug_string__impl"
  | .savvy_SedonaDBExpr_display__impl => "savvy_SedonaDBExpr_display__impl"
  | .savvy_SedonaDBExpr_negate__impl => "savvy_SedonaDBExpr_negate__impl"
  | .savvy_SedonaDBExprFactory_aggregate_function__impl => "savvy_SedonaDBExprFactory_aggregate_function__impl"
  | .savvy_SedonaDBExprFactory_binary__impl => "savvy_SedonaDBExprFactory_binary__impl"
  | .savvy_SedonaDBExprFactory_column__impl => "savvy_SedonaDBExprFactory_column__impl"
  | .savvy_SedonaDBExprFactory_literal__impl => "savvy_SedonaDBExprFactory_literal__impl"
  | .savvy_SedonaDBExprFactory_new__impl => "savvy_SedonaDBExprFactory_new__impl"
  | .savvy_SedonaDBExprFactory_scalar_function__impl => "savvy_SedonaDBExprFactory_scalar_function__impl"
  | .savvy_SedonaTypeR_crs__impl => "savvy_SedonaTypeR_crs__impl"
  | .savvy_SedonaTypeR_crs_display__impl => "savvy_SedonaTypeR_crs_display__impl"
  | .savvy_SedonaTypeR_logical_type_name__impl => "savvy_SedonaTypeR_logical_type_name__impl"
  | .savvy_SedonaTypeR_name__impl => "savvy_SedonaTypeR_name__impl"
  | .savvy_SedonaTypeR_new__impl => "savvy_SedonaTypeR_new__impl"

/-- The engine entry point that bears the wrapper's name, `savvy_X__ffi` for
`savvy_X__impl`. -/
def Impl.target : Impl → Ffi
  | .savvy_configure_proj_shared__impl => .savvy_configure_proj_shared__ffi
  | .savvy_init_r_runtime__impl => .savvy_init_r_runtime__ffi
  | .savvy_init_r_runtime_interrupts__impl => .savvy_init_r_runtime_interrupts__ffi
  | .savvy_parse_crs_metadata__impl => .savvy_parse_crs_metadata__ffi
  | .savvy_sedonadb_adbc_init_func__impl => .savvy_sedonadb_adbc_init_func__ffi
  | .savvy_InternalContext_data_frame_from_array_stream__impl => .savvy_InternalContext_data_frame_from_array_stream__ffi
  | .savvy_InternalContext_data_frame_from_table_provider__impl => .savvy_InternalContext_data_frame_from_table_provider__ffi
  | .savvy_InternalContext_deregister_table__impl => .savvy_InternalContext_deregister_table__ffi
  | .savvy_InternalContext_new__impl => .savvy_InternalContext_new__ffi
  | .savvy_InternalContext_read_parquet__impl => .savvy_InternalContext_read_parquet__ffi
  | .savvy_InternalContext_register_scalar_udf__impl => .savvy_InternalContext_register_scalar_udf__ffi
  | .savvy_InternalContext_scalar_udf_xptr__impl => .savvy_InternalContext_scalar_udf_xptr__ffi
  | .savvy_InternalContext_sql__impl => .savvy_InternalContext_sql__ffi
  | .savvy_InternalContext_view__impl => .savvy_InternalContext_view__ffi
  | .savvy_InternalDataFrame_collect__impl => .savvy_InternalDataFrame_collect__ffi
  | .savvy_InternalDataFrame_compute__impl => .savvy_InternalDataFrame_compute__ffi
  | .savvy_InternalDataFrame_count__impl => .savvy_InternalDataFrame_count__ffi
  | .savvy_InternalDataFrame_limit__impl => .savvy_InternalDataFrame_limit__ffi
  | .savvy_InternalDataFrame_primary_geometry_column_index__impl => .savvy_InternalDataFrame_primary_geometry_column_index__ffi
  | .savvy_InternalDataFrame_select_indices__impl => .savvy_InternalDataFrame_select_indices__ffi
  | .savvy_InternalDataFrame_show__impl => .savvy_InternalDataFrame_show__ffi
  | .savvy_InternalDataFrame_to_arrow_schema__impl => .savvy_InternalDataFrame_to_arrow_schema__ffi
  | .savvy_InternalDataFrame_to_arrow_stream__impl => .savvy_InternalDataFrame_to_arrow_stream__ffi
  | .savvy_InternalDataFrame_to_parquet__impl => .savvy_InternalDataFrame_to_parquet__ffi
  | .savvy_InternalDataFrame_to_provider__impl => .savvy_InternalDataFrame_to_provider__ffi
  | .savvy_InternalDataFrame_to_view__impl => .savvy_InternalDataFrame_to_view__ffi
  | .savvy_SedonaCrsR_authority_code__impl => .savvy_SedonaCrsR_authority_code__ffi
  | .savvy_SedonaCrsR_display__impl => .savvy_SedonaCrsR_display__ffi
  | .savvy_SedonaCrsR_srid__impl => .savvy_SedonaCrsR_srid__ffi
  | .savvy_SedonaCrsR_to_crs_string__impl => .savvy_SedonaCrsR_to_crs_string__ffi
  | .savvy_SedonaCrsR_to_json__impl => .savvy_SedonaCrsR_to_json__ffi
  | .savvy_SedonaDBExpr_alias__impl => .savvy_SedonaDBExpr_alias__ffi
  | .savvy_SedonaDBExpr_cast__impl => .savvy_SedonaDBExpr_cast__ffi
  | .savvy_SedonaDBExpr_debug_string__impl => .savvy_SedonaDBExpr_debug_string__ffi
  | .savvy_SedonaDBExpr_display__impl => .savvy_SedonaDBExpr_display__ffi
  | .savvy_SedonaDBExpr_negate__impl => .savvy_SedonaDBExpr_negate__ffi
  | .savvy_SedonaDBExprFactory_aggregate_function__impl => .savvy_SedonaDBExprFactory_aggregate_function__ffi
  | .savvy_SedonaDBExprFactory_binary__impl => .savvy_SedonaDBExprFactory_binary__ffi
  | .savvy_SedonaDBExprFactory_column__impl => .savvy_SedonaDBExprFactory_column__ffi
  | .savvy_SedonaDBExprFactory_literal__impl => .savvy_SedonaDBExprFactory_literal__ffi
  | .savvy_SedonaDBExprFactory_new__impl => .savvy_SedonaDBExprFactory_new__ffi
  | .savvy_SedonaDBExprFactory_scalar_function__impl => .savvy_SedonaDBExprFactory_scalar_function__ffi
  | .savvy_SedonaTypeR_crs__impl => .savvy_SedonaTypeR_crs__ffi
  | .savvy_SedonaTypeR_crs_display__impl => .savvy_SedonaTypeR_crs_display__ffi
  | .savvy_SedonaTypeR_logical_type_name__impl => .savvy_SedonaTypeR_logical_type_name__ffi
  | .savvy_SedonaTypeR_name__impl => .savvy_SedonaTypeR_name__ffi
  | .savvy_SedonaTypeR_new__impl => .savvy_SedonaTypeR_new__ffi

/-- A call through a pointer to a wrapper with a list of host values, as `.Call`
makes it: defined when the wrapper's definition has that many parameters, all
of type `SEXP`. -/
def Impl.invoke (H : Host σ) : Impl → List SEXP → Option (M σ SEXP)
  | .savvy_configure_proj_shared__impl => call3 (Sedonadb.savvy_configure_proj_shared__impl H)
  | .savvy_init_r_runtime__impl => fun _ => none
  | .savvy_init_r_runtime_interrupts__impl => call2 (Sedonadb.savvy_init_r_runtime_interrupts__impl H)
  | .savvy_parse_crs_metadata__impl => call1 (Sedonadb.savvy_parse_crs_metadata__impl H)
  | .savvy_sedonadb_adbc_init_func__impl => call0 (Sedonadb.savvy_sedonadb_adbc_init_func__impl H)
  | .savvy_InternalContext_data_frame_from_array_stream__impl => call3 (Sedonadb.savvy_InternalContext_data_frame_from_array_stream__impl H)
  | .savvy_InternalContext_data_frame_from_table_provider__impl => call2 (Sedonadb.savvy_InternalContext_data_frame_from_table_provider__impl H)
  | .savvy_InternalContext_deregister_table__impl => call2 (Sedonadb.savvy_InternalContext_deregister_table__impl H)
  | .savvy_InternalContext_new__impl => call0 (Sedonadb.savvy_InternalContext_new__impl H)
  | .savvy_InternalContext_read_parquet__impl => call2 (Sedonadb.savvy_InternalContext_read_parquet__impl H)
  | .savvy_InternalContext_register_scalar_udf__impl => call2 (Sedonadb.savvy_InternalContext_register_scalar_udf__impl H)
  | .savvy_InternalContext_scalar_udf_xptr__impl => call2 (Sedonadb.savvy_InternalContext_scalar_udf_xptr__impl H)
  | .savvy_InternalContext_sql__impl => call2 (Sedonadb.savvy_InternalContext_sql__impl H)
  | .savvy_InternalContext_view__impl => call2 (Sedonadb.savvy_InternalContext_view__impl H)
  | .savvy_InternalDataFrame_collect__impl => call2 (Sedonadb.savvy_InternalDataFrame_collect__impl H)
  | .savvy_InternalDataFrame_compute__impl => call2 (Sedonadb.savvy_InternalDataFrame_compute__impl H)
  | .savvy_InternalDataFrame_count__impl => call1 (Sedonadb.savvy_InternalDataFrame_count__impl H)
  | .savvy_InternalDataFrame_limit__impl => call2 (Sedonadb.savvy_InternalDataFrame_limit__impl H)
  | .savvy_InternalDataFrame_primary_geometry_column_index__impl => call1 (Sedonadb.savvy_InternalDataFrame_primary_geometry_column_index__impl H)
  | .savvy_InternalDataFrame_select_indices__impl => call3 (Sedonadb.savvy_InternalDataFrame_select_indices__impl H)
  | .savvy_InternalDataFrame_show__impl => call5 (Sedonadb.savvy_InternalDataFrame_show__impl H)
  | .savvy_InternalDataFrame_to_arrow_schema__impl => call2 (Sedonadb.savvy_InternalDataFrame_to_arrow_schema__impl H)
  | .savvy_InternalDataFrame_to_arrow_stream__impl => call3 (Sedonadb.savvy_InternalDataFrame_to_arrow_stream__impl H)
  | .savvy_InternalDataFrame_to_parquet__impl => call8 (Sedonadb.savvy_InternalDataFrame_to_parquet__impl H)
  | .savvy_InternalDataFrame_to_provider__impl => call1 (Sedonadb.savvy_InternalDataFrame_to_provider__impl H)
  | .savvy_InternalDataFrame_to_view__impl => call4 (Sedonadb.savvy_InternalDataFrame_to_view__impl H)
  | .savvy_SedonaCrsR_authority_code__impl => call1 (Sedonadb.savvy_SedonaCrsR_authority_code__impl H)
  | .savvy_SedonaCrsR_display__impl => call1 (Sedonadb.savvy_SedonaCrsR_display__impl H)
  | .savvy_SedonaCrsR_srid__impl => call1 (Sedonadb.savvy_SedonaCrsR_srid__impl H)
  | .savvy_SedonaCrsR_to_crs_string__impl => call1 (Sedonadb.savvy_SedonaCrsR_to_crs_string__impl H)
  | .savvy_SedonaCrsR_to_json__impl => call1 (Sedonadb.savvy_SedonaCrsR_to_json__impl H)
  | .savvy_SedonaDBExpr_alias__impl => call2 (Sedonadb.savvy_SedonaDBExpr_alias__impl H)
  | .savvy_SedonaDBExpr_cast__impl => call2 (Sedonadb.savvy_SedonaDBExpr_cast__impl H)
  | .savvy_SedonaDBExpr_debug_string__impl => call1 (Sedonadb.savvy_SedonaDBExpr_debug_string__impl H)
  | .savvy_SedonaDBExpr_display__impl => call1 (Sedonadb.savvy_SedonaDBExpr_display__impl H)
  | .savvy_SedonaDBExpr_negate__impl => call1 (Sedonadb.savvy_SedonaDBExpr_negate__impl H)
  | .savvy_SedonaDBExprFactory_aggregate_function__impl => call5 (Sedonadb.savvy_SedonaDBExprFactory_aggregate_function__impl H)
  | .savvy_SedonaDBExprFactory_binary__impl => call4 (Sedonadb.savvy_SedonaDBExprFactory_binary__impl H)
  | .savvy_SedonaDBExprFactory_column__impl => call3 (Sedonadb.savvy_SedonaDBExprFactory_column__impl H)
  | .savvy_SedonaDBExprFactory_literal__impl => call2 (Sedonadb.savvy_SedonaDBExprFactory_literal__impl H)
  | .savvy_SedonaDBExprFactory_new__impl => call1 (Sedonadb.savvy_SedonaDBExprFactory_new__impl H)
  | .savvy_SedonaDBExprFactory_scalar_function__impl => call3 (Sedonadb.savvy_SedonaDBExprFactory_scalar_function__impl H)
  | .savvy_SedonaTypeR_crs__impl => call1 (Sedonadb.savvy_SedonaTypeR_crs__impl H)
  | .savvy_SedonaTypeR_crs_display__impl => call1 (Sedonadb.savvy_SedonaTypeR_crs_display__impl H)
  | .savvy_SedonaTypeR_logical_type_name__impl => call1 (Sedonadb.savvy_SedonaTypeR_logical_type_name__impl H)
  | .savvy_SedonaTypeR_name__impl => call1 (Sedonadb.savvy_SedonaTypeR_name__impl H)
  | .savvy_SedonaTypeR_new__impl => call1 (Sedonadb.savvy_SedonaTypeR_new__impl H)

/-! ## A small host to evaluate the shim on -/

/-- A 64-bit host whose state counts what happened: the object at address 4112
is a `CHARSXP` holding a message, every other address holds an object of type
1; the engine fails with that message (tagged) on `sql`, with a tagged unwind
token on `view`, and succeeds elsewhere. -/
def demoHost : Host Nat where
  w := 64
  CHARSXP := 9
  R_NilValue := ⟨4096⟩
  TYPEOF := fun _ x => if x.addr = 4112 then 9 else 1
  CHAR := fun _ x => if x.addr = 4112 then "disk is 100%s full" else ""
  ffi := fun f _ s =>
    (if f = .savvy_InternalContext_sql__ffi then ⟨4113⟩
     else if f = .savvy_InternalContext_view__ffi then ⟨4129⟩
     else ⟨8192⟩, s + 1)
  R_registerRoutines := fun _ _ _ _ _ s => s + 100
  R_useDynamicSymbols := fun _ _ s => s + 1000

/-- The demo host with an engine whose every entry point, the initialiser
included, fails with the message at address 4112 (the tagged word 4113). -/
def failingHost : Host Nat where
  w := 64
  CHARSXP := 9
  R_NilValue := ⟨4096⟩
  TYPEOF := fun _ x => if x.addr = 4112 then 9 else 1
  CHAR := fun _ x => if x.addr = 4112 then "disk is 100%s full" else ""
  ffi := fun _ _ s => (⟨4113⟩, s + 1)
  R_registerRoutines := fun _ _ _ _ _ s => s + 100
  R_useDynamicSymbols := fun _ _ s => s + 1000


/-! ## Forwarding, as the spec words it -/

/-- A pure forwarder to the engine entry point `f` on the arguments `a`: run
from any state, `m` calls `f` first, on exactly `a`, makes no other call into
the engine, and ends as `handle_result` ends on the word that call returned,
from the state that call left. -/
def IsForwarder (H : Host σ) (m : M σ SEXP) (f : Ffi) (a : List Arg) : Prop :=
  ∀ s : σ,
    (m s).calls = .ffi f a :: (handle_result H (H.ffi f a s).1 (H.ffi f a s).2).calls ∧
    (m s).calls.countP Event.isFfi = 1 ∧
    (m s).exit = (handle_result H (H.ffi f a s).1 (H.ffi f a s).2).exit ∧
    (m s).state = (handle_result H (H.ffi f a s).1 (H.ffi f a s).2).state

/-! ## Machine-word facts -/

theorem one_mod_two_pow (w : Nat) (hw : 0 < w) : 1 % 2 ^ w = 1 :=
  Nat.mod_eq_of_lt (Nat.one_lt_two_pow (by omega))

theorem mod_two_pow_mod_two (w r : Nat) (hw : 0 < w) : (r % 2 ^ w) % 2 = r % 2 := by
  obtain ⟨k, rfl⟩ : ∃ k, w = k + 1 := ⟨w - 1, by omega⟩
  rw [pow_succ]
  exact Nat.mod_mul_left_mod r (2 ^ k) 2

/-- Clearing bit 0 of a `w`-bit word subtracts that bit. -/
theorem and_complement_mask (w r : Nat) (hr : r < 2 ^ w) :
    r &&& complement w (TAGGED_POINTER_MASK w) = r - r % 2 := by
  unfold complement TAGGED_POINTER_MASK
  rcases Nat.eq_zero_or_pos w with rfl | hw
  · have : r = 0 := by simpa using hr
    subst this
    simp
  obtain ⟨k, rfl⟩ : ∃ k, w = k + 1 := ⟨w - 1, by omega⟩
  rw [one_mod_two_pow _ hw]
  have hm : 2 ^ (k + 1) - 1 - 1 = 2 * (2 ^ k - 1) := by
    have : 1 ≤ 2 ^ k := Nat.one_le_two_pow
    rw [pow_succ]; omega
  rw [hm]
  apply Nat.eq_of_testBit_eq
  intro i
  rw [Nat.testBit_land]
  cases i with
  | zero =>
    simp only [Nat.testBit_zero]
    have h1 : 2 * (2 ^ k - 1) % 2 = 0 := by omega
    have h2 : (r - r % 2) % 2 = 0 := by omega
    simp [h1, h2]
  | succ j =>
    rw [Nat.testBit_succ, Nat.testBit_succ, Nat.testBit_succ]
    have h1 : 2 * (2 ^ k - 1) / 2 = 2 ^ k - 1 := by omega
    have h2 : (r - r % 2) / 2 = r / 2 := by omega
    rw [h1, h2, Nat.testBit_two_pow_sub_one]
    by_cases hj : j < k
    · simp [hj]
    · have hlt : r / 2 < 2 ^ j := by
        have : 2 ^ k ≤ 2 ^ j := Nat.pow_le_pow_right (by omega) (by omega)
        rw [pow_succ] at hr
        omega
      simp [hj, Nat.testBit_lt_two_pow hlt]

/-- Setting bit 0 of an even number adds one. -/
theorem or_one_of_even (p : Nat) (h0 : p % 2 = 0) : p ||| 1 = p + 1 := by
  have h : 2 ^ 1 * (p / 2) + 1 = 2 ^ 1 * (p / 2) ||| 1 :=
    Nat.mul_add_lt_is_or (by decide) (p / 2)
  have hp : 2 ^ 1 * (p / 2) = p := by omega
  rw [hp] at h
  exact h.symm

/-- The tag test of `handle_result` reads bit 0. -/
theorem and_mask_eq_one_iff (w r : Nat) (hw : 0 < w) :
    (r % 2 ^ w) &&& TAGGED_POINTER_MASK w = 1 ↔ r % 2 = 1 := by
  unfold TAGGED_POINTER_MASK
  rw [one_mod_two_pow w hw, Nat.and_one_is_mod, mod_two_pow_mod_two w r hw]

/-! ## `handle_result`, case by case -/

theorem handle_result_eq (H : Host σ) (r : SEXP) (s : σ) :
    handle_result H r s =
      if (r.addr % 2 ^ H.w) &&& TAGGED_POINTER_MASK H.w = 1 then
        if H.TYPEOF s (untagged H r) = H.CHARSXP then
          ⟨.unwound, s, [.Rf_errorcall H.R_NilValue "%s" [H.CHAR s (untagged H r)]]⟩
        else
          ⟨.unwound, s, [.R_ContinueUnwind (untagged H r)]⟩
      else ⟨.returned ⟨r.addr % 2 ^ H.w⟩, s, []⟩ := by
  unfold handle_result untagged
  by_cases h : (r.addr % 2 ^ H.w) &&& TAGGED_POINTER_MASK H.w = 1
  · by_cases h2 : H.TYPEOF s ⟨(r.addr % 2 ^ H.w) &&& complement H.w (TAGGED_POINTER_MASK H.w)⟩ = H.CHARSXP
    · simp [h, h2, bind, M.bind, pure, M.pure, TYPEOF, CHAR, Rf_errorcall, R_ContinueUnwind]
    · simp [h, h2, bind, M.bind, pure, M.pure, TYPEOF, CHAR, Rf_errorcall, R_ContinueUnwind]
  · simp [h, bind, M.bind, pure, M.pure, TYPEOF, CHAR, Rf_errorcall, R_ContinueUnwind]


/-! ## Calls through a function pointer -/

theorem call0_eq_some {β : Type} (f : β) (args : List SEXP) (m : β) :
    call0 f args = some m ↔ args = [] ∧ f = m := by
  rcases args with _ | ⟨a, t⟩ <;> simp [call0]

theorem call1_eq_some {β : Type} (f : SEXP → β) (args : List SEXP) (m : β) :
    call1 f args = some m ↔ ∃ a, args = [a] ∧ f a = m := by
  rcases args with _ | ⟨a, _ | ⟨b, t⟩⟩ <;> simp [call1]

theorem call2_eq_some {β : Type} (f : SEXP → SEXP → β) (args : List SEXP) (m : β) :
    call2 f args = some m ↔ ∃ a b, args = [a, b] ∧ f a b = m := by
  rcases args with _ | ⟨a, _ | ⟨b, _ | ⟨c, t⟩⟩⟩ <;> simp [call2]
  exact ⟨fun h => ⟨_, _, ⟨rfl, rfl⟩, h⟩,
    by rintro ⟨_, _, ⟨rfl, rfl⟩, h⟩; exact h⟩

theorem call3_eq_some {β : Type} (f : SEXP → SEXP → SEXP → β) (args : List SEXP) (m : β) :
    call3 f args = some m ↔ ∃ a b c, args = [a, b, c] ∧ f a b c = m := by
  rcases args with _ | ⟨a, _ | ⟨b, _ | ⟨c, _ | ⟨d, t⟩⟩⟩⟩ <;> simp [call3]
  exact ⟨fun h => ⟨_, _, _, ⟨rfl, rfl, rfl⟩, h⟩,
    by rintro ⟨_, _, _, ⟨rfl, rfl, rfl⟩, h⟩; exact h⟩

theorem call4_eq_some {β : Type} (f : SEXP → SEXP → SEXP → SEXP → β) (args : List SEXP)
    (m : β) :
    call4 f args = some m ↔ ∃ a b c d, args = [a, b, c, d] ∧ f a b c d = m := by
  rcases args with _ | ⟨a, _ | ⟨b, _ | ⟨c, _ | ⟨d, _ | ⟨e, t⟩⟩⟩⟩⟩ <;> simp [call4]
  exact ⟨fun h => ⟨_, _, _, _, ⟨rfl, rfl, rfl, rfl⟩, h⟩,
    by rintro ⟨_, _, _, _, ⟨rfl, rfl, rfl, rfl⟩, h⟩; exact h⟩

theorem call5_eq_some {β : Type} (f : SEXP → SEXP → SEXP → SEXP → SEXP → β)
    (args : List SEXP) (m : β) :
    call5 f args = some m ↔ ∃ a b c d e, args = [a, b, c, d, e] ∧ f a b c d e = m := by
  rcases args with _ | ⟨a, _ | ⟨b, _ | ⟨c, _ | ⟨d, _ | ⟨e, _ | ⟨g, t⟩⟩⟩⟩⟩⟩ <;> simp [call5]
  exact ⟨fun h => ⟨_, _, _, _, _, ⟨rfl, rfl, rfl, rfl, rfl⟩, h⟩,
    by rintro ⟨_, _, _, _, _, ⟨rfl, rfl, rfl, rfl, rfl⟩, h⟩; exact h⟩

theorem call8_eq_some {β : Type}
    (f : SEXP → SEXP → SEXP → SEXP → SEXP → SEXP → SEXP → SEXP → β)
    (args : List SEXP) (m : β) :
    call8 f args = some m ↔
      ∃ a b c d e g h i, args = [a, b, c, d, e, g, h, i] ∧ f a b c d e g h i = m := by
  rcases args with _ | ⟨a, _ | ⟨b, _ | ⟨c, _ | ⟨d, _ | ⟨e, _ | ⟨g, _ | ⟨h, _ | ⟨i, _ | ⟨j, t⟩⟩⟩⟩⟩⟩⟩⟩⟩ <;> simp [call8]
  exact ⟨fun h => ⟨_, _, _, _, _, _, _, _, ⟨rfl, rfl, rfl, rfl, rfl, rfl, rfl, rfl⟩, h⟩,
    by rintro ⟨_, _, _, _, _, _, _, _, ⟨rfl, rfl, rfl, rfl, rfl, rfl, rfl, rfl⟩, h⟩; exact h⟩

theorem call0_isSome {β : Type} (f : β) (args : List SEXP) :
    (call0 f args).isSome = true ↔ args.length = 0 := by
  rcases args with _ | ⟨a, t⟩ <;> simp [call0]

theorem call1_isSome {β : Type} (f : SEXP → β) (args : List SEXP) :
    (call1 f args).isSome = true ↔ args.length = 1 := by
  rcases args with _ | ⟨a, _ | ⟨b, t⟩⟩ <;> simp [call1]

theorem call2_isSome {β : Type} (f : SEXP → SEXP → β) (args : List SEXP) :
    (call2 f args).isSome = true ↔ args.length = 2 := by
  rcases args with _ | ⟨a, _ | ⟨b, _ | ⟨c, t⟩⟩⟩ <;> simp [call2]

theorem call3_isSome {β : Type} (f : SEXP → SEXP → SEXP → β) (args : List SEXP) :
    (call3 f args).isSome = true ↔ args.length = 3 := by
  rcases args with _ | ⟨a, _ | ⟨b, _ | ⟨c, _ | ⟨d, t⟩⟩⟩⟩ <;> simp [call3]

theorem call4_isSome {β : Type} (f : SEXP → SEXP → SEXP → SEXP → β) (args : List SEXP) :
    (call4 f args).isSome = true ↔ args.length = 4 := by
  rcases args with _ | ⟨a, _ | ⟨b, _ | ⟨c, _ | ⟨d, _ | ⟨e, t⟩⟩⟩⟩⟩ <;> simp [call4]

theorem call5_isSome {β : Type} (f : SEXP → SEXP → SEXP → SEXP → SEXP → β)
    (args : List SEXP) :
    (call5 f args).isSome = true ↔ args.length = 5 := by
  rcases args with _ | ⟨a, _ | ⟨b, _ | ⟨c, _ | ⟨d, _ | ⟨e, _ | ⟨g, t⟩⟩⟩⟩⟩⟩ <;> simp [call5]

theorem call8_isSome {β : Type}
    (f : SEXP → SEXP → SEXP → SEXP → SEXP → SEXP → SEXP → SEXP → β) (args : List SEXP) :
    (call8 f args).isSome = true ↔ args.length = 8 := by
  rcases args with _ | ⟨a, _ | ⟨b, _ | ⟨c, _ | ⟨d, _ | ⟨e, _ | ⟨g, _ | ⟨h, _ | ⟨i, _ | ⟨j, t⟩⟩⟩⟩⟩⟩⟩⟩⟩ <;>
    simp [call8]

/-- A wrapper called through its pointer is the engine call of the same name on
the same arguments, followed by `handle_result` on what that call returned. -/
theorem invoke_eq_forward (H : Host σ) (f : Impl) (args : List SEXP) (m : M σ SEXP)
    (h : f.invoke H args = some m) :
    m = (engine H f.target (args.map Arg.sexp) >>= handle_result H) := by
  cases f <;>
    simp only [Impl.invoke, call0_eq_some, call1_eq_some, call2_eq_some, call3_eq_some,
      call4_eq_some, call5_eq_some, call8_eq_some, reduceCtorEq] at h <;>
    first
    | (obtain ⟨rfl, rfl⟩ := h; rfl)
    | (obtain ⟨a, rfl, rfl⟩ := h; rfl)
    | (obtain ⟨a, b, rfl, rfl⟩ := h; rfl)
    | (obtain ⟨a, b, c, rfl, rfl⟩ := h; rfl)
    | (obtain ⟨a, b, c, d, rfl, rfl⟩ := h; rfl)
    | (obtain ⟨a, b, c, d, e, rfl, rfl⟩ := h; rfl)
    | (obtain ⟨a, b, c, d, e, g, h8, i, rfl, rfl⟩ := h; rfl)


/-- No call into the engine is made by `handle_result`. -/
theorem handle_result_no_ffi (H : Host σ) (r : SEXP) (s : σ) :
    (handle_result H r s).calls.countP Event.isFfi = 0 := by
  rw [handle_result_eq]
  split_ifs <;> simp [Event.isFfi]

/-- The run of an engine call followed by `handle_result`. -/
theorem forward_isForwarder (H : Host σ) (f : Ffi) (a : List Arg) :
    IsForwarder H (engine H f a >>= handle_result H) f a := by
  intro s
  have h0 := handle_result_no_ffi H (H.ffi f a s).1 (H.ffi f a s).2
  have hrun : (engine H f a >>= handle_result H) s =
      ⟨(handle_result H (H.ffi f a s).1 (H.ffi f a s).2).exit,
       (handle_result H (H.ffi f a s).1 (H.ffi f a s).2).state,
       .ffi f a :: (handle_result H (H.ffi f a s).1 (H.ffi f a s).2).calls⟩ := by
    simp [bind, M.bind, engine]
  rw [hrun]
  refine ⟨rfl, ?_, rfl, rfl⟩
  simp [List.countP_cons, Event.isFfi, h0]

/-- An even word within the pointer width passes through `handle_result`. -/
theorem handle_result_eq_of_even (H : Host σ) (r : SEXP) (s : σ)
    (hr : r.addr < 2 ^ H.w) (h0 : r.addr % 2 = 0) :
    handle_result H r s = ⟨.returned r, s, []⟩ := by
  rw [handle_result_eq]
  have h1 : ¬ ((r.addr % 2 ^ H.w) &&& TAGGED_POINTER_MASK H.w = 1) := by
    rcases Nat.eq_zero_or_pos H.w with hz | hw
    · simp [hz, TAGGED_POINTER_MASK]
    · intro h
      have := (and_mask_eq_one_iff H.w r.addr hw).1 h
      omega
  rw [if_neg h1, Nat.mod_eq_of_lt hr]

/-- Every wrapper but the load-time one can be called with host values. -/
theorem invoke_isSome_of_ne (H : Host σ) (f : Impl) (hf : f ≠ .savvy_init_r_runtime__impl) :
    ∃ args, (f.invoke H args).isSome = true := by
  cases f <;>
    first
    | exact absurd rfl hf
    | exact ⟨[], rfl⟩
    | exact ⟨[⟨0⟩], rfl⟩
    | exact ⟨[⟨0⟩, ⟨0⟩], rfl⟩
    | exact ⟨[⟨0⟩, ⟨0⟩, ⟨0⟩], rfl⟩
    | exact ⟨[⟨0⟩, ⟨0⟩, ⟨0⟩, ⟨0⟩], rfl⟩
    | exact ⟨[⟨0⟩, ⟨0⟩, ⟨0⟩, ⟨0⟩, ⟨0⟩], rfl⟩
    | exact ⟨[⟨0⟩, ⟨0⟩, ⟨0⟩, ⟨0⟩, ⟨0⟩, ⟨0⟩, ⟨0⟩, ⟨0⟩], rfl⟩

/-- The wrappers the table points to are all but the load-time one. -/
theorem mem_CallEntries_fun_iff (f : Impl) :
    (∃ e ∈ CallEntries, e.fun_ = some f) ↔ f ≠ .savvy_init_r_runtime__impl := by
  revert f
  decide

/-- The run of `R_init_sedonadb`, in terms of the run of `handle_result` on the
word the engine's initialiser returned. -/
theorem R_init_sedonadb_run (H : Host σ) (dll : DllInfoPtr) (s : σ) :
    (R_init_sedonadb H dll s).calls =
      [.R_registerRoutines dll none (some CallEntries) none none,
       .R_useDynamicSymbols dll false,
       .ffi .savvy_init_r_runtime__ffi [.dll dll]] ++
      (handle_result H
        (H.ffi .savvy_init_r_runtime__ffi [.dll dll] (H.R_useDynamicSymbols dll false
          (H.R_registerRoutines dll none (some CallEntries) none none s))).1
        (H.ffi .savvy_init_r_runtime__ffi [.dll dll] (H.R_useDynamicSymbols dll false
          (H.R_registerRoutines dll none (some CallEntries) none none s))).2).calls ∧
    (R_init_sedonadb H dll s).state =
      (handle_result H
        (H.ffi .savvy_init_r_runtime__ffi [.dll dll] (H.R_useDynamicSymbols dll false
          (H.R_registerRoutines dll none (some CallEntries) none none s))).1
        (H.ffi .savvy_init_r_runtime__ffi [.dll dll] (H.R_useDynamicSymbols dll false
          (H.R_registerRoutines dll none (some CallEntries) none none s))).2).state ∧
    ((R_init_sedonadb H dll s).exit = .unwound ↔
      (handle_result H
        (H.ffi .savvy_init_r_runtime__ffi [.dll dll] (H.R_useDynamicSymbols dll false
          (H.R_registerRoutines dll none (some CallEntries) none none s))).1
        (H.ffi .savvy_init_r_runtime__ffi [.dll dll] (H.R_useDynamicSymbols dll false
          (H.R_registerRoutines dll none (some CallEntries) none none s))).2).exit = .unwound) ∧
    ((R_init_sedonadb H dll s).exit = .returned () ∨
      (R_init_sedonadb H dll s).exit = .unwound) := by
  simp only [R_init_sedonadb, savvy_init_r_runtime__impl, bind, M.bind, pure, M.pure,
    R_registerRoutines, R_useDynamicSymbols, engine, handle_result_eq]
  split_ifs <;> simp

/-- What `handle_result` returns normally has bit 0 clear. -/
theorem handle_result_returned_even (H : Host σ) (hw : 0 < H.w) (r : SEXP) (s : σ) (v : SEXP)
    (hv : (handle_result H r s).exit = .returned v) : v.addr % 2 = 0 := by
  rw [handle_result_eq] at hv
  split_ifs at hv with h1
  cases hv
  have h0 : ¬ (r.addr % 2 = 1) := fun h => h1 ((and_mask_eq_one_iff H.w r.addr hw).2 h)
  show (r.addr % 2 ^ H.w) % 2 = 0
  rw [mod_two_pow_mod_two _ _ hw]
  omega

/-- The untagged pointer of an odd word within the pointer width. -/
theorem untagged_of_odd (H : Host σ) (r : SEXP) (hr : r.addr < 2 ^ H.w)
    (ht : r.addr % 2 = 1) : untagged H r = ⟨r.addr - 1⟩ := by
  unfold untagged
  rw [Nat.mod_eq_of_lt hr, and_complement_mask _ _ hr, ht]


/-! ## Claims about `handle_result` -/

/-- C1: `handle_result` leaves by the host error path exactly when bit 0 of the
result word is set: it is unwound iff the word is odd, it makes a raising call
(`Rf_errorcall` or `R_ContinueUnwind`, and nothing else) iff the word is odd,
and whatever it returns normally is even; hence no wrapper, called through
its pointer or at load time, returns an odd word. -/
theorem handle_result_raises_iff_tagged (H : Host σ) (hw : 0 < H.w) (r : SEXP) (s : σ) :
    ((handle_result H r s).exit = .unwound ↔ r.addr % 2 = 1) ∧
    ((∃ e, (handle_result H r s).calls = [e] ∧ e.raises = true) ↔ r.addr % 2 = 1) ∧
    (∀ v, (handle_result H r s).exit = .returned v → v.addr % 2 = 0) ∧
    (∀ (f : Impl) (args : List SEXP) (m : M σ SEXP) (t : σ) (v : SEXP),
      f.invoke H args = some m → (m t).exit = .returned v → v.addr % 2 = 0) ∧
    (∀ (d : DllInfoPtr) (t : σ) (v : SEXP),
      (savvy_init_r_runtime__impl H d t).exit = .returned v → v.addr % 2 = 0) := by
  refine ⟨?_, ?_, handle_result_returned_even H hw r s, ?_, ?_⟩
  · rw [handle_result_eq]
    by_cases ht : r.addr % 2 = 1
    · rw [if_pos ((and_mask_eq_one_iff H.w r.addr hw).2 ht)]
      split_ifs <;> simp [ht]
    · rw [if_neg (fun h => ht ((and_mask_eq_one_iff H.w r.addr hw).1 h))]
      simp [ht]
  · rw [handle_result_eq]
    by_cases ht : r.addr % 2 = 1
    · rw [if_pos ((and_mask_eq_one_iff H.w r.addr hw).2 ht)]
      split_ifs <;> simp [ht, Event.raises]
    · rw [if_neg (fun h => ht ((and_mask_eq_one_iff H.w r.addr hw).1 h))]
      simp [ht]
  · intro f args m t v hm hv
    rw [invoke_eq_forward H f args m hm, (forward_isForwarder H _ _ t).2.2.1] at hv
    exact handle_result_returned_even H hw _ _ v hv
  · intro d t v hv
    have h := (forward_isForwarder H .savvy_init_r_runtime__ffi [.dll d] t).2.2.1
    rw [show (savvy_init_r_runtime__impl H d t).exit = _ from h] at hv
    exact handle_result_returned_even H hw _ _ v hv

/-- C1 at the demo host: the tagged word 4113 is raised, the word 8192 is not. -/
theorem handle_result_raises_iff_tagged_witness :
    ((handle_result demoHost ⟨4113⟩ 0).exit = .unwound ↔ (4113 : Nat) % 2 = 1) ∧
    ((∃ e, (handle_result demoHost ⟨4113⟩ 0).calls = [e] ∧ e.raises = true) ↔
      (4113 : Nat) % 2 = 1) ∧
    (∀ v, (handle_result demoHost ⟨4113⟩ 0).exit = .returned v → v.addr % 2 = 0) :=
  ⟨(handle_result_raises_iff_tagged demoHost (by decide) ⟨4113⟩ 0).1,
   (handle_result_raises_iff_tagged demoHost (by decide) ⟨4113⟩ 0).2.1,
   (handle_result_raises_iff_tagged demoHost (by decide) ⟨4113⟩ 0).2.2.1⟩

/-- C2: a result word with bit 0 clear is returned as it is: same word, no
call made (so neither `Rf_errorcall` nor `R_ContinueUnwind`), state untouched. -/
theorem handle_result_success_unchanged (H : Host σ) (r : SEXP) (s : σ)
    (hr : r.addr < 2 ^ H.w) (h0 : r.addr % 2 = 0) :
    handle_result H r s = ⟨.returned r, s, []⟩ :=
  handle_result_eq_of_even H r s hr h0

/-- C2 at the demo host, on the word 8192. -/
theorem handle_result_success_unchanged_witness :
    handle_result demoHost ⟨8192⟩ 7 = ⟨.returned ⟨8192⟩, 7, []⟩ :=
  handle_result_success_unchanged demoHost ⟨8192⟩ 7 (by decide) (by decide)

/-- C3: a tagged word whose pointer (the word less its tag bit) is a `CHARSXP`
makes exactly one call, `Rf_errorcall(R_NilValue, "%s", CHAR(pointer))`, and
leaves by it; read as a format, `"%s"` with that one argument yields the
string's characters unchanged, whatever they are. -/
theorem handle_result_engine_error (H : Host σ) (hw : 0 < H.w) (r : SEXP) (s : σ)
    (hr : r.addr < 2 ^ H.w) (ht : r.addr % 2 = 1)
    (hc : H.TYPEOF s ⟨r.addr - 1⟩ = H.CHARSXP) :
    handle_result H r s =
      ⟨.unwound, s, [.Rf_errorcall H.R_NilValue "%s" [H.CHAR s ⟨r.addr - 1⟩]]⟩ ∧
    formatted "%s".data [H.CHAR s ⟨r.addr - 1⟩] = (H.CHAR s ⟨r.addr - 1⟩).data := by
  have hu : untagged H r = ⟨r.addr - 1⟩ := untagged_of_odd H r hr ht
  constructor
  · rw [handle_result_eq, if_pos ((and_mask_eq_one_iff H.w r.addr hw).2 ht), hu, if_pos hc]
  · simp [formatted]

/-- C3 at the demo host: the message with a percent sign in it arrives whole. -/
theorem handle_result_engine_error_witness :
    handle_result demoHost ⟨4113⟩ 3 =
      ⟨.unwound, 3, [.Rf_errorcall ⟨4096⟩ "%s" ["disk is 100%s full"]]⟩ ∧
    formatted "%s".data ["disk is 100%s full"] = "disk is 100%s full".data :=
  handle_result_engine_error demoHost (by decide) ⟨4113⟩ 3 (by decide) (by decide) (by decide)

/-- C4: a tagged word whose pointer (the word less its tag bit) is an object
of any type but `CHARSXP` makes exactly one call, `R_ContinueUnwind(pointer)`,
and leaves by it; `Rf_errorcall` is not called. -/
theorem handle_result_continue_unwind (H : Host σ) (hw : 0 < H.w) (r : SEXP) (s : σ)
    (hr : r.addr < 2 ^ H.w) (ht : r.addr % 2 = 1)
    (hc : H.TYPEOF s ⟨r.addr - 1⟩ ≠ H.CHARSXP) :
    handle_result H r s = ⟨.unwound, s, [.R_ContinueUnwind ⟨r.addr - 1⟩]⟩ := by
  have hu : untagged H r = ⟨r.addr - 1⟩ := untagged_of_odd H r hr ht
  rw [handle_result_eq, if_pos ((and_mask_eq_one_iff H.w r.addr hw).2 ht), hu, if_neg hc]

/-- C4 at the demo host: the tagged token 4129 is resumed with 4128. -/
theorem handle_result_continue_unwind_witness :
    handle_result demoHost ⟨4129⟩ 3 = ⟨.unwound, 3, [.R_ContinueUnwind ⟨4128⟩]⟩ :=
  handle_result_continue_unwind demoHost (by decide) ⟨4129⟩ 3 (by decide) (by decide)
    (by decide)


/-! ## Claims about the wrappers -/

/-- C5: each of the 47 wrappers is a pure forwarder.  Called through its
pointer with host values, a wrapper calls the engine entry point of its own
name once, on the same values in the same order, and ends as `handle_result`
ends on the returned word; so does the load-time wrapper on its `DllInfo *`;
every wrapper but that one accepts some list of host values; an untagged word
returned by the engine is what the wrapper returns; and `to_parquet` and
`aggregate_function` pass their parameters in the order of their definitions. -/
theorem wrappers_forward (H : Host σ) :
    Fintype.card Impl = 47 ∧
    (∀ (f : Impl) (args : List SEXP) (m : M σ SEXP), f.invoke H args = some m →
      IsForwarder H m f.target (args.map Arg.sexp)) ∧
    (∀ d : DllInfoPtr,
      IsForwarder H (savvy_init_r_runtime__impl H d) .savvy_init_r_runtime__ffi [.dll d]) ∧
    (∀ f : Impl, f ≠ .savvy_init_r_runtime__impl → ∃ args, (f.invoke H args).isSome = true) ∧
    (∀ (f : Impl) (args : List SEXP) (m : M σ SEXP) (s : σ), f.invoke H args = some m →
      (H.ffi f.target (args.map Arg.sexp) s).1.addr < 2 ^ H.w →
      (H.ffi f.target (args.map Arg.sexp) s).1.addr % 2 = 0 →
      m s = ⟨.returned (H.ffi f.target (args.map Arg.sexp) s).1,
             (H.ffi f.target (args.map Arg.sexp) s).2,
             [.ffi f.target (args.map Arg.sexp)]⟩) ∧
    (∀ self__ ctx path partition_by sort_by single_file_output overwrite_bbox_columns
        geoparquet_version : SEXP,
      IsForwarder H
        (savvy_InternalDataFrame_to_parquet__impl H self__ ctx path partition_by sort_by
          single_file_output overwrite_bbox_columns geoparquet_version)
        .savvy_InternalDataFrame_to_parquet__ffi
        [.sexp self__, .sexp ctx, .sexp path, .sexp partition_by, .sexp sort_by,
         .sexp single_file_output, .sexp overwrite_bbox_columns, .sexp geoparquet_version]) ∧
    (∀ self__ name args na_rm distinct : SEXP,
      IsForwarder H
        (savvy_SedonaDBExprFactory_aggregate_function__impl H self__ name args na_rm distinct)
        .savvy_SedonaDBExprFactory_aggregate_function__ffi
        [.sexp self__, .sexp name, .sexp args, .sexp na_rm, .sexp distinct]) := by
  refine ⟨by decide, ?_, ?_, ?_, ?_, ?_, ?_⟩
  · intro f args m h
    rw [invoke_eq_forward H f args m h]
    exact forward_isForwarder H _ _
  · intro d
    exact forward_isForwarder H _ _
  · intro f hf
    cases f <;>
      first
      | exact absurd rfl hf
      | exact ⟨[], rfl⟩
      | exact ⟨[⟨0⟩], rfl⟩
      | exact ⟨[⟨0⟩, ⟨0⟩], rfl⟩
      | exact ⟨[⟨0⟩, ⟨0⟩, ⟨0⟩], rfl⟩
      | exact ⟨[⟨0⟩, ⟨0⟩, ⟨0⟩, ⟨0⟩], rfl⟩
      | exact ⟨[⟨0⟩, ⟨0⟩, ⟨0⟩, ⟨0⟩, ⟨0⟩], rfl⟩
      | exact ⟨[⟨0⟩, ⟨0⟩, ⟨0⟩, ⟨0⟩, ⟨0⟩, ⟨0⟩, ⟨0⟩, ⟨0⟩], rfl⟩
  · intro f args m s h hlt hev
    rw [invoke_eq_forward H f args m h]
    have hr := handle_result_eq_of_even H _ (H.ffi f.target (args.map Arg.sexp) s).2 hlt hev
    simp [bind, M.bind, engine, hr]
  · intro self__ ctx path partition_by sort_by single_file_output overwrite_bbox_columns
      geoparquet_version
    exact forward_isForwarder H _ _
  · intro self__ name args na_rm distinct
    exact forward_isForwarder H _ _

/-- C5 at the demo host: `sql` on two values calls `savvy_InternalContext_sql__ffi`
on those two values, and `new`, whose engine call succeeds, returns its word. -/
theorem wrappers_forward_witness :
    IsForwarder demoHost (savvy_InternalContext_sql__impl demoHost ⟨16⟩ ⟨32⟩)
      .savvy_InternalContext_sql__ffi [.sexp ⟨16⟩, .sexp ⟨32⟩] ∧
    savvy_InternalContext_new__impl demoHost 5 =
      ⟨.returned ⟨8192⟩, 6, [.ffi .savvy_InternalContext_new__ffi []]⟩ :=
  ⟨(wrappers_forward demoHost).2.1 .savvy_InternalContext_sql__impl [⟨16⟩, ⟨32⟩] _ rfl,
   (wrappers_forward demoHost).2.2.2.2.1 .savvy_InternalContext_new__impl [] _ 5 rfl
     (by decide) (by decide)⟩


/-! ## Claims about the table -/

/-- C6: the registered arity is the wrapper's parameter count.  For every row
of `CallEntries` that points to a wrapper, a call through that pointer with
host values is well-formed exactly when their number is the row's `numArgs`;
the rows of `to_parquet`, `show`, `aggregate_function`, `InternalContext_new`
and `sedonadb_adbc_init_func` carry 8, 5, 5, 0 and 0. -/
theorem CallEntries_numArgs_matches (H : Host σ) :
    (∀ e ∈ CallEntries, ∀ f : Impl, e.fun_ = some f → ∀ args : List SEXP,
      ((f.invoke H args).isSome = true ↔ args.length = e.numArgs)) ∧
    (∀ e ∈ CallEntries,
      (e.fun_ = some .savvy_InternalDataFrame_to_parquet__impl → e.numArgs = 8) ∧
      (e.fun_ = some .savvy_InternalDataFrame_show__impl → e.numArgs = 5) ∧
      (e.fun_ = some .savvy_SedonaDBExprFactory_aggregate_function__impl → e.numArgs = 5) ∧
      (e.fun_ = some .savvy_InternalContext_new__impl → e.numArgs = 0) ∧
      (e.fun_ = some .savvy_sedonadb_adbc_init_func__impl → e.numArgs = 0)) := by
  constructor
  · intro e he f hf args
    simp only [CallEntries, List.mem_cons, List.mem_singleton, List.not_mem_nil, or_false] at he
    rcases he with rfl | rfl | rfl | rfl | rfl | rfl | rfl | rfl | rfl | rfl | rfl | rfl | rfl | rfl | rfl | rfl | rfl | rfl | rfl | rfl | rfl | rfl | rfl | rfl | rfl | rfl | rfl | rfl | rfl | rfl | rfl | rfl | rfl | rfl | rfl | rfl | rfl | rfl | rfl | rfl | rfl | rfl | rfl | rfl | rfl | rfl | rfl <;>
      cases hf <;>
      simp only [Impl.invoke, call0_isSome, call1_isSome, call2_isSome, call3_isSome,
        call4_isSome, call5_isSome, call8_isSome]
  · decide

/-- C6 at the demo host: the row of `to_parquet` accepts eight values. -/
theorem CallEntries_numArgs_matches_witness :
    ((Impl.savvy_InternalDataFrame_to_parquet__impl.invoke demoHost
        [⟨1⟩, ⟨2⟩, ⟨3⟩, ⟨4⟩, ⟨5⟩, ⟨6⟩, ⟨7⟩, ⟨8⟩]).isSome = true ↔
      [(⟨1⟩ : SEXP), ⟨2⟩, ⟨3⟩, ⟨4⟩, ⟨5⟩, ⟨6⟩, ⟨7⟩, ⟨8⟩].length = 8) :=
  (CallEntries_numArgs_matches demoHost).1
    ⟨some "savvy_InternalDataFrame_to_parquet__impl",
      some .savvy_InternalDataFrame_to_parquet__impl, 8⟩ (by decide)
    .savvy_InternalDataFrame_to_parquet__impl rfl [⟨1⟩, ⟨2⟩, ⟨3⟩, ⟨4⟩, ⟨5⟩, ⟨6⟩, ⟨7⟩, ⟨8⟩]


/-- C7: every row's name is the identifier of the wrapper its pointer refers to
(the terminating row has neither), no two rows share a name, and therefore a
name is borne by at most one row, whose pointer is the wrapper of that name;
every wrapper in the table is found under its own identifier. -/
theorem CallEntries_names_match_and_unique :
    (∀ e ∈ CallEntries, e.name = e.fun_.map Impl.ident) ∧
    (CallEntries.map R_CallMethodDef.name).Nodup ∧
    (∀ e1 ∈ CallEntries, ∀ e2 ∈ CallEntries, e1.name = e2.name → e1 = e2) ∧
    (∀ e ∈ CallEntries, ∀ f : Impl, e.name = some f.ident → e.fun_ = some f) ∧
    (∀ f : Impl, f ≠ .savvy_init_r_runtime__impl →
      ∃ e ∈ CallEntries, e.name = some f.ident ∧ e.fun_ = some f) := by
  have hnodup : (CallEntries.map R_CallMethodDef.name).Nodup := by decide
  refine ⟨by decide, hnodup, ?_, by decide, by decide⟩
  intro e1 h1 e2 h2 h
  exact List.inj_on_of_nodup_map hnodup h1 h2 h

/-- C8: the table is 46 rows that each name and point to a wrapper, then the
one terminating row `{NULL, NULL, 0}`; a wrapper is in the table iff it is not
`savvy_init_r_runtime__impl`.  That wrapper is the one that cannot be called
with host values; no call through a row of the table reaches the engine's
`savvy_init_r_runtime__ffi`, and `R_init_sedonadb` does. -/
theorem CallEntries_covers_wrappers (H : Host σ) :
    CallEntries.length = 47 ∧
    CallEntries.getLast? = some ⟨none, none, 0⟩ ∧
    CallEntries.dropLast.length = 46 ∧
    (∀ e ∈ CallEntries.dropLast, e.name.isSome = true ∧ e.fun_.isSome = true) ∧
    (∀ f : Impl, (∃ e ∈ CallEntries, e.fun_ = some f) ↔ f ≠ .savvy_init_r_runtime__impl) ∧
    (∀ f : Impl, (∀ args : List SEXP, f.invoke H args = none) ↔
      f = .savvy_init_r_runtime__impl) ∧
    (∀ e ∈ CallEntries, ∀ f : Impl, e.fun_ = some f →
      ∀ (args : List SEXP) (m : M σ SEXP) (s : σ), f.invoke H args = some m →
      ∀ a : List Arg, Event.ffi .savvy_init_r_runtime__ffi a ∉ (m s).calls) ∧
    (∀ (dll : DllInfoPtr) (s : σ),
      Event.ffi .savvy_init_r_runtime__ffi [.dll dll] ∈ (R_init_sedonadb H dll s).calls) := by
  refine ⟨by decide, by decide, by decide, by decide, mem_CallEntries_fun_iff, ?_, ?_, ?_⟩
  · intro f
    constructor
    · intro h
      by_contra hf
      obtain ⟨args, hargs⟩ := invoke_isSome_of_ne H f hf
      rw [h args] at hargs
      exact absurd hargs (by simp)
    · rintro rfl args
      rfl
  · intro e he f hf args m s hm a hmem
    have hf2 : f ≠ .savvy_init_r_runtime__impl := (mem_CallEntries_fun_iff f).1 ⟨e, he, hf⟩
    have hne : Ffi.savvy_init_r_runtime__ffi ≠ f.target := by
      revert hf2
      cases f <;> simp [Impl.target]
    rw [invoke_eq_forward H f args m hm] at hmem
    rw [(forward_isForwarder H _ _ s).1, handle_result_eq] at hmem
    split_ifs at hmem <;> simp at hmem <;> exact hne hmem.1
  · intro dll s
    rw [(R_init_sedonadb_run H dll s).1]
    simp


/-! ## Claims about loading and about untagging -/

/-- C9: `R_init_sedonadb(dll)` first registers `CallEntries` as the `.Call`
routines of `dll` (the three other tables are `NULL`), then turns dynamic
symbol lookup off for `dll`, then calls the engine's initialiser on `dll`, in
the state the two registrations left, and from there on it is `handle_result`
on the word that call returned: the hook's further calls are those of
`handle_result`, it is unwound exactly when `handle_result` is, and its final
state is that of `handle_result`, the registrations still in it.  So on a
tagged word the hook does not return: the fourth and last call is the raising
call of `handle_result` (`Rf_errorcall(R_NilValue, "%s", CHAR(p))` when the
untagged pointer `p` is a `CHARSXP`, `R_ContinueUnwind(p)` otherwise); on an
untagged word it returns after the three calls. -/
theorem R_init_sedonadb_order (H : Host σ) (hw : 0 < H.w) (dll : DllInfoPtr) (s : σ) :
    (R_init_sedonadb H dll s).calls =
      [.R_registerRoutines dll none (some CallEntries) none none,
       .R_useDynamicSymbols dll false,
       .ffi .savvy_init_r_runtime__ffi [.dll dll]] ++
      (handle_result H (H.ffi .savvy_init_r_runtime__ffi [.dll dll] (H.R_useDynamicSymbols dll false
        (H.R_registerRoutines dll none (some CallEntries) none none s))).1 (H.ffi .savvy_init_r_runtime__ffi [.dll dll] (H.R_useDynamicSymbols dll false
        (H.R_registerRoutines dll none (some CallEntries) none none s))).2).calls ∧
    (R_init_sedonadb H dll s).state = (handle_result H (H.ffi .savvy_init_r_runtime__ffi [.dll dll] (H.R_useDynamicSymbols dll false
        (H.R_registerRoutines dll none (some CallEntries) none none s))).1 (H.ffi .savvy_init_r_runtime__ffi [.dll dll] (H.R_useDynamicSymbols dll false
        (H.R_registerRoutines dll none (some CallEntries) none none s))).2).state ∧
    ((R_init_sedonadb H dll s).exit = .unwound ↔
      (handle_result H (H.ffi .savvy_init_r_runtime__ffi [.dll dll] (H.R_useDynamicSymbols dll false
        (H.R_registerRoutines dll none (some CallEntries) none none s))).1 (H.ffi .savvy_init_r_runtime__ffi [.dll dll] (H.R_useDynamicSymbols dll false
        (H.R_registerRoutines dll none (some CallEntries) none none s))).2).exit = .unwound) ∧
    (R_init_sedonadb H dll s).calls.take 3 =
      [.R_registerRoutines dll none (some CallEntries) none none,
       .R_useDynamicSymbols dll false,
       .ffi .savvy_init_r_runtime__ffi [.dll dll]] ∧
    (R_init_sedonadb H dll s).state = (H.ffi .savvy_init_r_runtime__ffi [.dll dll] (H.R_useDynamicSymbols dll false
        (H.R_registerRoutines dll none (some CallEntries) none none s))).2 ∧
    ((H.ffi .savvy_init_r_runtime__ffi [.dll dll] (H.R_useDynamicSymbols dll false
        (H.R_registerRoutines dll none (some CallEntries) none none s))).1.addr % 2 = 1 →
      (R_init_sedonadb H dll s).exit = .unwound ∧
      ∃ e, e.raises = true ∧ (handle_result H (H.ffi .savvy_init_r_runtime__ffi [.dll dll] (H.R_useDynamicSymbols dll false
        (H.R_registerRoutines dll none (some CallEntries) none none s))).1 (H.ffi .savvy_init_r_runtime__ffi [.dll dll] (H.R_useDynamicSymbols dll false
        (H.R_registerRoutines dll none (some CallEntries) none none s))).2).calls = [e] ∧
        (R_init_sedonadb H dll s).calls =
          [.R_registerRoutines dll none (some CallEntries) none none,
           .R_useDynamicSymbols dll false,
           .ffi .savvy_init_r_runtime__ffi [.dll dll], e]) ∧
    ((H.ffi .savvy_init_r_runtime__ffi [.dll dll] (H.R_useDynamicSymbols dll false
        (H.R_registerRoutines dll none (some CallEntries) none none s))).1.addr % 2 = 0 →
      (R_init_sedonadb H dll s).exit = .returned () ∧
      (R_init_sedonadb H dll s).calls =
        [.R_registerRoutines dll none (some CallEntries) none none,
         .R_useDynamicSymbols dll false,
         .ffi .savvy_init_r_runtime__ffi [.dll dll]]) ∧
    ((H.ffi .savvy_init_r_runtime__ffi [.dll dll] (H.R_useDynamicSymbols dll false
        (H.R_registerRoutines dll none (some CallEntries) none none s))).1.addr < 2 ^ H.w → (H.ffi .savvy_init_r_runtime__ffi [.dll dll] (H.R_useDynamicSymbols dll false
        (H.R_registerRoutines dll none (some CallEntries) none none s))).1.addr % 2 = 1 →
      (R_init_sedonadb H dll s).exit = .unwound ∧
      (R_init_sedonadb H dll s).calls =
        [.R_registerRoutines dll none (some CallEntries) none none,
         .R_useDynamicSymbols dll false,
         .ffi .savvy_init_r_runtime__ffi [.dll dll]] ++
        [if H.TYPEOF (H.ffi .savvy_init_r_runtime__ffi [.dll dll] (H.R_useDynamicSymbols dll false
        (H.R_registerRoutines dll none (some CallEntries) none none s))).2 ⟨(H.ffi .savvy_init_r_runtime__ffi [.dll dll] (H.R_useDynamicSymbols dll false
        (H.R_registerRoutines dll none (some CallEntries) none none s))).1.addr - 1⟩ = H.CHARSXP then
           .Rf_errorcall H.R_NilValue "%s" [H.CHAR (H.ffi .savvy_init_r_runtime__ffi [.dll dll] (H.R_useDynamicSymbols dll false
        (H.R_registerRoutines dll none (some CallEntries) none none s))).2 ⟨(H.ffi .savvy_init_r_runtime__ffi [.dll dll] (H.R_useDynamicSymbols dll false
        (H.R_registerRoutines dll none (some CallEntries) none none s))).1.addr - 1⟩]
         else .R_ContinueUnwind ⟨(H.ffi .savvy_init_r_runtime__ffi [.dll dll] (H.R_useDynamicSymbols dll false
        (H.R_registerRoutines dll none (some CallEntries) none none s))).1.addr - 1⟩]) := by
  obtain ⟨hc, hs, hu, hx⟩ := R_init_sedonadb_run H dll s
  refine ⟨hc, hs, hu, ?_⟩
  generalize (H.ffi .savvy_init_r_runtime__ffi [.dll dll] (H.R_useDynamicSymbols dll false
        (H.R_registerRoutines dll none (some CallEntries) none none s))) = r at hc hs hu hx ⊢
  have hres := handle_result_eq H r.1 r.2
  by_cases ht : r.1.addr % 2 = 1
  · have h1 := (and_mask_eq_one_iff H.w r.1.addr hw).2 ht
    rw [if_pos h1] at hres
    have h0 : ¬ (r.1.addr % 2 = 0) := by omega
    by_cases hty : H.TYPEOF r.2 (untagged H r.1) = H.CHARSXP
    · rw [if_pos hty] at hres
      rw [hres] at hc hs hu
      refine ⟨by rw [hc]; rfl, hs, fun _ => ⟨hu.2 rfl,
          .Rf_errorcall H.R_NilValue "%s" [H.CHAR r.2 (untagged H r.1)], rfl,
          by rw [hres], hc⟩,
        fun h => absurd h h0, fun hlt _ => ⟨hu.2 rfl, ?_⟩⟩
      rw [← untagged_of_odd H r.1 hlt ht, if_pos hty]
      exact hc
    · rw [if_neg hty] at hres
      rw [hres] at hc hs hu
      refine ⟨by rw [hc]; rfl, hs, fun _ => ⟨hu.2 rfl,
          .R_ContinueUnwind (untagged H r.1), rfl, by rw [hres], hc⟩,
        fun h => absurd h h0, fun hlt _ => ⟨hu.2 rfl, ?_⟩⟩
      rw [← untagged_of_odd H r.1 hlt ht, if_neg hty]
      exact hc
  · have h1 : ¬ ((r.1.addr % 2 ^ H.w) &&& TAGGED_POINTER_MASK H.w = 1) :=
      fun h => ht ((and_mask_eq_one_iff H.w r.1.addr hw).1 h)
    rw [if_neg h1] at hres
    rw [hres] at hc hs hu
    refine ⟨by rw [hc]; rfl, hs, fun h => absurd h ht, fun _ => ⟨?_, hc⟩,
      fun _ h => absurd h ht⟩
    rcases hx with hx | hx
    · exact hx
    · exact absurd (hu.1 hx) (by simp)

/-- C9 at a host whose initialiser fails with a message: the load is unwound,
and the four calls are the registration, the disabling of dynamic lookup, the
initialiser, and the `Rf_errorcall` that `handle_result` makes on the tagged
word 4113 in the state 1101 that the first three left. -/
theorem R_init_sedonadb_order_witness :
    (R_init_sedonadb failingHost ⟨24⟩ 0).calls =
      [.R_registerRoutines ⟨24⟩ none (some CallEntries) none none,
       .R_useDynamicSymbols ⟨24⟩ false,
       .ffi .savvy_init_r_runtime__ffi [.dll ⟨24⟩]] ++
      (handle_result failingHost ⟨4113⟩ 1101).calls ∧
    (R_init_sedonadb failingHost ⟨24⟩ 0).state = 1101 ∧
    (R_init_sedonadb failingHost ⟨24⟩ 0).exit = .unwound ∧
    (R_init_sedonadb failingHost ⟨24⟩ 0).calls =
      [.R_registerRoutines ⟨24⟩ none (some CallEntries) none none,
       .R_useDynamicSymbols ⟨24⟩ false,
       .ffi .savvy_init_r_runtime__ffi [.dll ⟨24⟩]] ++
      [.Rf_errorcall ⟨4096⟩ "%s" ["disk is 100%s full"]] :=
  ⟨(R_init_sedonadb_order failingHost (by decide) ⟨24⟩ 0).1,
   (R_init_sedonadb_order failingHost (by decide) ⟨24⟩ 0).2.2.2.2.1,
   ((R_init_sedonadb_order failingHost (by decide) ⟨24⟩ 0).2.2.2.2.2.2.2
      (by decide) (by decide)).1,
   ((R_init_sedonadb_order failingHost (by decide) ⟨24⟩ 0).2.2.2.2.2.2.2
      (by decide) (by decide)).2⟩

/-- C10: on words of the pointer width, tagging an even pointer and clearing
the tag gives the pointer back; clearing the tag of an odd word subtracts one
and changes bit 0 only; so on the tagged form of an even pointer `p`,
`handle_result` inspects `p` itself: its type decides the branch, and its
string or `p` as token is what is raised. -/
theorem untag_recovers_pointer (H : Host σ) (hw : 0 < H.w) :
    (∀ p : Nat, p < 2 ^ H.w → p % 2 = 0 →
      (p ||| 1) < 2 ^ H.w ∧ (p ||| 1) % 2 = 1 ∧
      (p ||| 1) &&& complement H.w (TAGGED_POINTER_MASK H.w) = p) ∧
    (∀ r : Nat, r < 2 ^ H.w → r % 2 = 1 →
      r &&& complement H.w (TAGGED_POINTER_MASK H.w) = r - 1 ∧
      (r &&& complement H.w (TAGGED_POINTER_MASK H.w)).testBit 0 = false ∧
      r.testBit 0 = true ∧
      ∀ i : Nat, i ≠ 0 →
        (r &&& complement H.w (TAGGED_POINTER_MASK H.w)).testBit i = r.testBit i) ∧
    (∀ (p : Nat) (s : σ), p < 2 ^ H.w → p % 2 = 0 →
      untagged H ⟨p ||| 1⟩ = ⟨p⟩ ∧
      handle_result H ⟨p ||| 1⟩ s =
        if H.TYPEOF s ⟨p⟩ = H.CHARSXP then
          ⟨.unwound, s, [.Rf_errorcall H.R_NilValue "%s" [H.CHAR s ⟨p⟩]]⟩
        else ⟨.unwound, s, [.R_ContinueUnwind ⟨p⟩]⟩) := by
  have hodd : ∀ r : Nat, r < 2 ^ H.w → r % 2 = 1 →
      r &&& complement H.w (TAGGED_POINTER_MASK H.w) = r - 1 := by
    intro r hr ht
    rw [and_complement_mask _ _ hr, ht]
  have htag : ∀ p : Nat, p < 2 ^ H.w → p % 2 = 0 →
      (p ||| 1) < 2 ^ H.w ∧ (p ||| 1) % 2 = 1 := by
    intro p hp h0
    rw [or_one_of_even p h0]
    obtain ⟨k, hk⟩ : ∃ k, H.w = k + 1 := ⟨H.w - 1, by omega⟩
    rw [hk, pow_succ] at hp ⊢
    omega
  refine ⟨?_, ?_, ?_⟩
  · intro p hp h0
    obtain ⟨hlt, ht⟩ := htag p hp h0
    refine ⟨hlt, ht, ?_⟩
    rw [hodd _ hlt ht, or_one_of_even p h0]
    omega
  · intro r hr ht
    rw [hodd r hr ht]
    refine ⟨rfl, ?_, ?_, ?_⟩
    · rw [Nat.testBit_zero]
      have : (r - 1) % 2 = 0 := by omega
      simp [this]
    · rw [Nat.testBit_zero]
      simp [ht]
    · intro i hi
      obtain ⟨j, rfl⟩ : ∃ j, i = j + 1 := ⟨i - 1, by omega⟩
      rw [Nat.testBit_succ, Nat.testBit_succ]
      have : (r - 1) / 2 = r / 2 := by omega
      rw [this]
  · intro p s hp h0
    obtain ⟨hlt, ht⟩ := htag p hp h0
    have hu : untagged H ⟨p ||| 1⟩ = ⟨p⟩ := by
      rw [untagged_of_odd H ⟨p ||| 1⟩ hlt ht]
      show (⟨(p ||| 1) - 1⟩ : SEXP) = ⟨p⟩
      rw [or_one_of_even p h0]
      rfl
    refine ⟨hu, ?_⟩
    rw [handle_result_eq, if_pos ((and_mask_eq_one_iff H.w _ hw).2 ht), hu]

/-- C10 at the demo host: the message pointer 4112, tagged, is inspected as
4112. -/
theorem untag_recovers_pointer_witness :
    untagged demoHost ⟨4112 ||| 1⟩ = ⟨4112⟩ ∧
    handle_result demoHost ⟨4112 ||| 1⟩ 0 =
      if demoHost.TYPEOF 0 ⟨4112⟩ = demoHost.CHARSXP then
        ⟨.unwound, 0, [.Rf_errorcall demoHost.R_NilValue "%s" [demoHost.CHAR 0 ⟨4112⟩]]⟩
      else ⟨.unwound, 0, [.R_ContinueUnwind ⟨4112⟩]⟩ :=
  (untag_recovers_pointer demoHost (by decide)).2.2 4112 0 (by decide) (by decide)

end Sedonadb
